import Mathlib

/-!
# Verification of the fog05 Linux networking plugin core

A shallow embedding of `src/networking.rs` (eclipse-fog05/fog05-networking-linux).

Modelling conventions:

* 128-bit UUIDs are modelled as `Nat`; the nil UUID is `0`; `Uuid::new_v4()`
  draws from a counter oracle in the plugin state (fresh, never nil).
* The local/global catalogs are association lists keyed by the entity uuid;
  the catalog collaborators' own storage failures are outside the model
  (their `get` misses are modelled faithfully as `NotFound`).
* Every fallible external call (netlink driver mutation, OS file store,
  template render, nftables transaction, process spawn/kill) consumes the
  next outcome of the `ioRes` oracle stream (empty stream = success), and
  appends an `Effect` event to the run trace.  Worker RPC calls consume the
  `wRes` stream, whose entries carry the transport-level outcome outside and
  the worker-reported outcome inside, exactly as the Rust `.await?` /
  inner-`FResult` layering.  `verify_server` polls consume the `vRes` stream
  of booleans (empty stream = ready).
* The thread-local RNG is an oracle stream of `Fin 62` values indexed into
  rand's `Alphanumeric` character set.
* Kernel reads (link-index lookups, address lists) are answered from the
  `kernelAddrs` table and are not recorded as trace events; only mutations,
  worker RPCs, OS/process effects and catalog writes are.
* `serialize_network_internals` / `deserialize_network_internals` live in
  `crate::types`, which is not part of the sources; per the spec they
  round-trip (P5), so `plugin_internals` is modelled structurally.
-/

set_option maxRecDepth 10000

namespace Fos

/-- UUIDs are compared for identity only; model them as `Nat`, nil = 0. -/
abbrev Uuid := Nat

/-- Model of `fog05_sdk::types::IPAddress`: an IPv4 or IPv6 address. -/
inductive IPAddress
  | v4 (a b c d : Nat)
  | v6 (segs : List Nat)
deriving DecidableEq, Repr

/-- Model of `fog05_sdk::types::MACAddress` (six octets). -/
structure MACAddress where
  m0 : Nat
  m1 : Nat
  m2 : Nat
  m3 : Nat
  m4 : Nat
  m5 : Nat
deriving DecidableEq, Repr

/-- Value of `MACAddress::new(0,0,0,0,0,0)`. -/
def macZero : MACAddress := ⟨0, 0, 0, 0, 0, 0⟩

/-- Model of `fog05_sdk::types::InterfaceKind` (only ETHERNET is used by the core). -/
inductive InterfaceKind
  | ETHERNET
deriving DecidableEq, Repr

/-- Model of `fog05_sdk::types::Interface`: a raw kernel interface description. -/
structure Interface where
  if_name : String
  kind : InterfaceKind
  addresses : List IPAddress
  phy_address : Option MACAddress
deriving DecidableEq, Repr

/-- Model of `fog05_sdk::types::MCastVXLANInfo`. -/
structure MCastVXLANInfo where
  vni : Nat
  mcast_addr : IPAddress
  port : Nat
deriving DecidableEq, Repr

/-- Model of `fog05_sdk::types::P2PVXLANInfo`. -/
structure P2PVXLANInfo where
  vni : Nat
  remote_addr : IPAddress
  port : Nat
deriving DecidableEq, Repr

/-- Model of `fog05_sdk::types::LinkKind`; the kinds other than `L2`/`ELINE` are only
ever dispatched to `Unimplemented`, so they are collapsed into one tag. -/
inductive LinkKind
  | L2 (info : MCastVXLANInfo)
  | ELINE (info : P2PVXLANInfo)
  | unsupported
deriving DecidableEq, Repr

/-- Model of `fog05_sdk::types::IPVersion`. -/
inductive IPVersion
  | IPV4
  | IPV6
deriving DecidableEq, Repr

/-- Model of `fog05_sdk::types::IPConfiguration`. -/
structure IPConfiguration where
  subnet : Option (IPAddress × Nat)
  gateway : Option IPAddress
  dhcp_range : Option (IPAddress × IPAddress)
  dns : Option (List IPAddress)
deriving DecidableEq, Repr

/-- Model of `fog05_sdk::types::BridgeKind`. -/
structure BridgeKind where
  childs : List Uuid
deriving DecidableEq, Repr

/-- Model of `fog05_sdk::types::VXLANKind`. -/
structure VXLANKind where
  vni : Nat
  mcast_addr : IPAddress
  port : Nat
  dev : Interface
deriving DecidableEq, Repr

/-- Model of `fog05_sdk::types::VETHKind`. -/
structure VETHKind where
  pair : Uuid
  internal : Bool
deriving DecidableEq, Repr

/-- Model of `fog05_sdk::types::VLANKind`. -/
structure VLANKind where
  tag : Nat
  dev : Interface
deriving DecidableEq, Repr

/-- Model of `fog05_sdk::types::MACVLANKind`. -/
structure MACVLANKind where
  dev : Interface
deriving DecidableEq, Repr

/-- Model of `fog05_sdk::types::GREKind`. -/
structure GREKind where
  local_addr : IPAddress
  remote_addr : IPAddress
  ttl : Option Nat
deriving DecidableEq, Repr

/-- Model of `fog05_sdk::types::VirtualInterfaceKind`. -/
inductive VirtualInterfaceKind
  | BRIDGE (info : BridgeKind)
  | VXLAN (info : VXLANKind)
  | VETH (info : VETHKind)
  | VLAN (info : VLANKind)
  | MACVLAN (info : MACVLANKind)
  | GRE (info : GREKind)
  | GRETAP (info : GREKind)
  | IP6GRE (info : GREKind)
  | IP6GRETAP (info : GREKind)
deriving DecidableEq, Repr

/-- Model of `fog05_sdk::types::VirtualInterface`. -/
structure VirtualInterface where
  uuid : Uuid
  if_name : String
  net_ns : Option Uuid
  parent : Option Uuid
  kind : VirtualInterfaceKind
  addresses : List IPAddress
  phy_address : MACAddress
deriving DecidableEq, Repr

/-- Model of `fog05_sdk::types::NetworkNamespace`. -/
structure NetworkNamespace where
  uuid : Uuid
  ns_name : String
  interfaces : List Uuid
deriving DecidableEq, Repr

/-- Model of `crate::types::VNetDHCP` (the dnsmasq artifact paths). -/
structure VNetDHCP where
  leases_file : String
  pid_file : String
  conf : String
  log_file : String
deriving DecidableEq, Repr

/-- Model of `crate::types::VNetNetns`. -/
structure VNetNetns where
  ns_name : String
  ns_uuid : Uuid
deriving DecidableEq, Repr

/-- Model of `crate::types::VirtualNetworkInternals`. -/
structure VirtualNetworkInternals where
  associated_netns : Option VNetNetns
  dhcp : Option VNetDHCP
  associated_tables : List String
deriving DecidableEq, Repr

/-- Model of `fog05_sdk::types::VirtualNetwork`.  `plugin_internals` is kept
structural: `serialize_network_internals` (from `crate::types`, not in the
sources) round-trips with `deserialize_network_internals` per spec P5. -/
structure VirtualNetwork where
  uuid : Uuid
  id : String
  name : Option String
  is_mgmt : Bool
  link_kind : LinkKind
  ip_version : IPVersion
  ip_configuration : Option IPConfiguration
  connection_points : List Uuid
  interfaces : List Uuid
  plugin_internals : Option VirtualNetworkInternals
deriving DecidableEq, Repr

/-- Model of `fog05_sdk::fresult::FError`, restricted to the variants the core uses. -/
inductive FError
  | NotFound
  | WrongKind
  | NotConnected
  | AlreadyPresent
  | Unimplemented
  | NetworkingError (msg : String)
  | EncodingError
  | HardFailure
deriving DecidableEq, Repr

/-- Modelled from the spec: `crate::types::serialize_network_internals`
(`crate::types` is not under `src/`); by spec property P5 serialization
round-trips, so the serialized blob is identified with its value. -/
def serialize_network_internals (i : VirtualNetworkInternals) : VirtualNetworkInternals := i

/-- Modelled from the spec: `crate::types::deserialize_network_internals`,
inverse of `serialize_network_internals` (spec P5). -/
def deserialize_network_internals (i : VirtualNetworkInternals) : VirtualNetworkInternals := i

/-! ## Association-list catalogs -/

/-- Catalog lookup (`get_*` of the typed catalog collaborator). -/
def cget {κ α : Type} [DecidableEq κ] (l : List (κ × α)) (u : κ) : Option α :=
  match l with
  | [] => none
  | (k, v) :: r => if k = u then some v else cget r u

/-- Removal of every binding of key `u` (used by both `cput` and `cdel`). -/
def cfilter {κ α : Type} [DecidableEq κ] (l : List (κ × α)) (u : κ) : List (κ × α) :=
  match l with
  | [] => []
  | (k, v) :: r => if k = u then cfilter r u else (k, v) :: cfilter r u

/-- Catalog upsert keyed on `u` (the collaborator's typed `put`). -/
def cput {κ α : Type} [DecidableEq κ] (l : List (κ × α)) (u : κ) (v : α) : List (κ × α) :=
  (u, v) :: cfilter l u

/-- Catalog removal (the collaborator's typed `remove`). -/
def cdel {κ α : Type} [DecidableEq κ] (l : List (κ × α)) (u : κ) : List (κ × α) :=
  cfilter l u

/-! ## Random name generation (§6 naming rules)

`rand`'s `Alphanumeric` distribution draws uniformly from the 62-character
set `[A-Za-z0-9]`; the RNG is modelled as a stream of `Fin 62` indices. -/

/-- The `rand::distributions::Alphanumeric` character set. -/
def alphanumericCharset : List Char :=
  "ABCDEFGHIJKLMNOPQRSTUVWXYZabcdefghijklmnopqrstuvwxyz0123456789".data

/-- One `Alphanumeric` sample. -/
def alphanumericChar (i : Fin 62) : Char :=
  alphanumericCharset.getD i.val 'A'

/-- Model of `thread_rng().sample_iter(&Alphanumeric).take(n)`, from an entropy
stream (exhausted entropy defaults to index 0; real entropy is infinite). -/
def sampleAlphanumeric (pool : List (Fin 62)) (n : Nat) : List Char :=
  (List.range n).map (fun i => alphanumericChar (pool.getD i ⟨0, by decide⟩))

/-- Model of `LinuxNetwork::generate_random_interface_name` (8 alphanumerics). -/
def generate_random_interface_name (pool : List (Fin 62)) : String :=
  String.mk (sampleAlphanumeric pool 8)

/-- Model of `LinuxNetwork::generate_random_netns_name` (`format!("ns-{}", 8 chars)`). -/
def generate_random_netns_name (pool : List (Fin 62)) : String :=
  String.mk (['n', 's', '-'] ++ sampleAlphanumeric pool 8)

/-- Model of `LinuxNetwork::generate_random_nft_table_name`
(`format!("table{}", 10 chars)`). -/
def generate_random_nft_table_name (pool : List (Fin 62)) : String :=
  String.mk (['t', 'a', 'b', 'l', 'e'] ++ sampleAlphanumeric pool 10)

/-- Membership in the `[A-Za-z0-9]` class. -/
def isAsciiAlnum (c : Char) : Bool :=
  (('A' ≤ c && c ≤ 'Z') || ('a' ≤ c && c ≤ 'z') || ('0' ≤ c && c ≤ '9'))

/-! ## The netlink retry loop (§4.1 retry policy)

Every driver mutation shares the same loop shape:

    let mut backoff = 100;
    loop {
      <attempt>;
      match res { Ok => return Ok, NetlinkError(nl) if nl.code == -16 =>
        sleep(backoff), other => return Err }
      backoff *= 2;
      if backoff > 5000 { return Err(NetworkingError("Timeout")) }
    }

The kernel's successive answers are an oracle `Nat → NlOutcome` indexed by
attempt number; after `a` sleeps the `backoff` variable equals `100 * 2^a`.
The function returns the result together with the list of sleep durations
(in milliseconds), in order. -/

/-- Outcome of one netlink `execute()`: success, EBUSY (code −16), or any
other error (both non-(-16) `NetlinkError`s and other rtnetlink errors). -/
inductive NlOutcome
  | ok
  | busy
  | err (msg : String)
deriving DecidableEq, Repr

/-- The shared retry loop of the netlink driver operations.  Mirrors the
source exactly: attempt `a` uses backoff `100 * 2^a`; on EBUSY it sleeps
that long, doubles, and gives up with `"Timeout"` once the doubled backoff
exceeds 5000 ms. -/
def netlinkRetry (oracle : Nat → NlOutcome) (a : Nat) : Except FError Unit × List Nat :=
  match oracle a with
  | NlOutcome.ok => (Except.ok (), [])
  | NlOutcome.err msg => (Except.error (FError.NetworkingError msg), [])
  | NlOutcome.busy =>
    if h : 100 * 2 ^ (a + 1) > 5000 then
      (Except.error (FError.NetworkingError "Timeout"), [100 * 2 ^ a])
    else
      let p := netlinkRetry oracle (a + 1)
      (p.1, 100 * 2 ^ a :: p.2)
termination_by 5 - a
decreasing_by
  have ha : a < 5 := by
    by_contra hcon
    push_neg at hcon
    have h64 : (64 : Nat) ≤ 2 ^ (a + 1) := by
      calc (64 : Nat) = 2 ^ 6 := by norm_num
        _ ≤ 2 ^ (a + 1) := Nat.pow_le_pow_right (by norm_num) (by omega)
    omega
  omega

/-- Model of `LinuxNetwork::create_bridge` at netlink granularity: the retry loop
run from the first attempt.  (Every other driver mutation runs the same
loop; `create_bridge` is the claim's representative.) -/
def create_bridge_retry (oracle : Nat → NlOutcome) : Except FError Unit × List Nat :=
  netlinkRetry oracle 0

/-! ## Lock discipline of the driver loops (§5)

The netlink handle lives in `LinuxNetworkState` behind a `RwLock`; each
driver operation takes the write guard.  To decide whether the backoff
sleep happens while the guard is held, each operation is transcribed as a
sequence of lock/sleep events in program order. In `create_bridge` (and
`create_veth`) the guard is taken and dropped (`drop(state)`) inside each
iteration, before the sleep; in `create_vlan` (and every lookup-first
operation: `create_mcast_vxlan`, `create_ptp_vxlan`, `del_iface`,
`set_iface_master`, `del_iface_master`, `add_iface_address`,
`del_iface_address`, `set_iface_name`, `set_iface_mac`, `set_iface_ns`,
`set_iface_default_ns`, `set_iface_up`, `set_iface_down`) the guard is
taken once at the top and dropped only when the function returns. -/

/-- One lock-relevant event of a driver operation. -/
inductive LockEv
  | acquire
  | release
  | sleep (ms : Nat)
  | nlAttempt
  | nlLookup
deriving DecidableEq, Repr

/-- Event trace of `LinuxNetwork::create_bridge`: each loop iteration
acquires the write guard, executes the netlink add, and `drop(state)`s the
guard before matching on the result (so before any sleep). -/
def create_bridge_lock_trace (oracle : Nat → NlOutcome) (a : Nat) : List LockEv :=
  LockEv.acquire :: LockEv.nlAttempt :: LockEv.release ::
  match oracle a with
  | NlOutcome.ok => []
  | NlOutcome.err _ => []
  | NlOutcome.busy =>
    LockEv.sleep (100 * 2 ^ a) ::
    (if h : 100 * 2 ^ (a + 1) > 5000 then []
     else create_bridge_lock_trace oracle (a + 1))
termination_by 5 - a
decreasing_by
  have ha : a < 5 := by
    by_contra hcon
    push_neg at hcon
    have h64 : (64 : Nat) ≤ 2 ^ (a + 1) := by
      calc (64 : Nat) = 2 ^ 6 := by norm_num
        _ ≤ 2 ^ (a + 1) := Nat.pow_le_pow_right (by norm_num) (by omega)
    omega
  omega

/-- Event trace of the retry loop inside `LinuxNetwork::create_vlan`: the
loop only issues attempts and sleeps; the guard taken at the top of the
function stays held throughout. -/
def create_vlan_lock_loop (oracle : Nat → NlOutcome) (a : Nat) : List LockEv :=
  LockEv.nlAttempt ::
  match oracle a with
  | NlOutcome.ok => []
  | NlOutcome.err _ => []
  | NlOutcome.busy =>
    LockEv.sleep (100 * 2 ^ a) ::
    (if h : 100 * 2 ^ (a + 1) > 5000 then []
     else create_vlan_lock_loop oracle (a + 1))
termination_by 5 - a
decreasing_by
  have ha : a < 5 := by
    by_contra hcon
    push_neg at hcon
    have h64 : (64 : Nat) ≤ 2 ^ (a + 1) := by
      calc (64 : Nat) = 2 ^ 6 := by norm_num
        _ ≤ 2 ^ (a + 1) := Nat.pow_le_pow_right (by norm_num) (by omega)
    omega
  omega

/-- Event trace of `LinuxNetwork::create_vlan`: the write guard is acquired
once, the parent link is looked up under it, the retry loop runs under it,
and the guard is released only when the function returns (the guard's
scope is the whole function body).  `found` tells whether the parent-device
lookup succeeds (otherwise the function returns `NotFound` at once). -/
def create_vlan_lock_trace (oracle : Nat → NlOutcome) (found : Bool) : List LockEv :=
  LockEv.acquire :: LockEv.nlLookup ::
  ((if found then create_vlan_lock_loop oracle 0 else []) ++ [LockEv.release])

/-- Does some `sleep` event occur at positive lock depth? -/
def sleepsWhileHeld (depth : Nat) : List LockEv → Bool
  | [] => false
  | LockEv.acquire :: r => sleepsWhileHeld (depth + 1) r
  | LockEv.release :: r => sleepsWhileHeld (depth - 1) r
  | LockEv.sleep _ :: r => decide (0 < depth) || sleepsWhileHeld depth r
  | LockEv.nlAttempt :: r => sleepsWhileHeld depth r
  | LockEv.nlLookup :: r => sleepsWhileHeld depth r

/-! ## Plugin state and effect monad (orchestrator granularity)

At orchestrator granularity each driver mutation / worker RPC / OS call is
one event; its outcome is drawn from an oracle stream carried in the state
(`ioRes` / `wRes` / `vRes`, empty stream = success).  The run of an
operation yields `(result, final state, trace of external effects and
catalog writes)`. -/

/-- One external effect or catalog write of the orchestrator. -/
inductive Effect
  | createBridge (name : String)
  | createVeth (a b : String)
  | createVlan (iface dev : String) (tag : Nat)
  | createMcastVxlan (iface dev : String) (vni : Nat) (addr : IPAddress) (port : Nat)
  | createPtpVxlan (iface dev : String) (vni : Nat) (localAddr remoteAddr : IPAddress) (port : Nat)
  | vxlanStep (iface dev : String) (vni : Nat) (port : Nat)
  | delIface (name : String)
  | setIfaceMaster (iface master : String)
  | delIfaceMaster (iface : String)
  | setIfaceUp (name : String)
  | setIfaceDown (name : String)
  | addIfaceAddress (iface : String) (addr : IPAddress) (pfx : Nat)
  | delIfaceAddress (iface : String) (addr : IPAddress)
  | setIfaceNs (iface nsName : String)
  | addNetns (name : String)
  | delNetns (name : String)
  | spawnNsManager (nsName : String) (nsUuid : Uuid)
  | killNsManager (nsUuid : Uuid)
  | wVerifyServer (mgr : Uuid)
  | wSetIfaceUp (mgr : Uuid) (name : String)
  | wAddBridge (mgr : Uuid) (name : String)
  | wSetMaster (mgr : Uuid) (iface master : String)
  | wDelIface (mgr : Uuid) (name : String)
  | wMoveToDefault (mgr : Uuid) (name : String)
  | renderDnsmasq (iface : String)
  | storeFile (pth : String)
  | spawnDnsmasq (conf : String)
  | natConfigure (ip : IPAddress) (pfx : Nat) (iface : String)
  | natClean (table : String)
  | catPutIface (rec : VirtualInterface)
  | catDelIface (u : Uuid)
  | catPutNet (rec : VirtualNetwork)
  | catDelNet (u : Uuid)
  | catPutNetns (rec : NetworkNamespace)
  | catDelNetns (u : Uuid)
deriving DecidableEq, Repr

instance {ε α : Type} [DecidableEq ε] [DecidableEq α] : DecidableEq (Except ε α) :=
  fun a b =>
    match a, b with
    | Except.ok x, Except.ok y =>
      if h : x = y then isTrue (by rw [h])
      else isFalse (by intro hc; cases hc; exact h rfl)
    | Except.ok _, Except.error _ => isFalse (by intro hc; cases hc)
    | Except.error _, Except.ok _ => isFalse (by intro hc; cases hc)
    | Except.error e, Except.error f =>
      if h : e = f then isTrue (by rw [h])
      else isFalse (by intro hc; cases hc; exact h rfl)

/-- Model of `LinuxNetworkConfig` (the fields the core reads). -/
structure LNConfig where
  nodeUuid : Uuid
  overlay_iface : Option String
  dataplane_iface : Option String
  run_path : String
  path : String
deriving DecidableEq, Repr

/-- The plugin's world: local and global catalogs, the supervisor map
(`ns_managers`, uuid → worker pid), kernel address tables, configuration,
and the oracle streams (fresh uuids / pids, RNG entropy, external-call
outcomes indexed by `ioIdx`, worker RPC outcomes indexed by `wIdx`,
readiness polls). -/
structure PState where
  localIfaces : List (Uuid × VirtualInterface)
  localNets : List (Uuid × VirtualNetwork)
  localNss : List (Uuid × NetworkNamespace)
  globalNets : List (Uuid × VirtualNetwork)
  nsManagers : List (Uuid × Nat)
  kernelAddrs : List (String × List IPAddress)
  config : LNConfig
  uuidCtr : Nat
  pidCtr : Nat
  entropy : List (Fin 62)
  ioRes : Nat → Except FError Unit
  ioIdx : Nat
  wRes : Nat → Except FError (Except FError Unit)
  wIdx : Nat
  vRes : List Bool

/-- A plugin computation: state in, `(result, state, effect trace)` out. -/
def M (α : Type) : Type := PState → Except FError α × PState × List Effect

def M.pure {α : Type} (a : α) : M α := fun s => (Except.ok a, s, [])

def M.bind {α β : Type} (m : M α) (f : α → M β) : M β := fun s =>
  match m s with
  | (Except.error e, s1, t1) => (Except.error e, s1, t1)
  | (Except.ok a, s1, t1) =>
    let r := f a s1
    (r.1, r.2.1, t1 ++ r.2.2)

instance : Monad M where
  pure := M.pure
  bind := M.bind

/-- Run a computation on a state. -/
def M.run {α : Type} (m : M α) (s : PState) : Except FError α × PState × List Effect := m s

/-- Propagation of `Err(e)` (Rust `?`). -/
def throwE {α : Type} (e : FError) : M α := fun s => (Except.error e, s, [])

/-- Run a fallible call and ignore its result (a Rust call without `?`). -/
def attempt {α : Type} (m : M α) : M Unit := fun s =>
  let r := m s
  (Except.ok (), r.2.1, r.2.2)

/-- An external fallible call: consume the next `ioRes` outcome and record
the effect. -/
def extCall (eff : Effect) : M Unit := fun s =>
  (s.ioRes s.ioIdx, { s with ioIdx := s.ioIdx + 1 }, [eff])

/-- A worker RPC returning the worker's own `FResult`: the outer layer is
the RPC transport (propagated with `?`), the inner one is the worker's
answer. -/
def wcall (eff : Effect) : M (Except FError Unit) := fun s =>
  (s.wRes s.wIdx, { s with wIdx := s.wIdx + 1 }, [eff])

/-- The second `?` of `.await??`: unwrap the worker's own answer. -/
def liftInner : Except FError Unit → M Unit
  | Except.ok _ => M.pure ()
  | Except.error e => throwE e

/-! ### Catalog collaborator operations -/
def localGetInterfaceOpt (u : Uuid) : M (Option VirtualInterface) := fun s =>
  (Except.ok (cget s.localIfaces u), s, [])

def localGetInterface (u : Uuid) : M VirtualInterface := do
  match ← localGetInterfaceOpt u with
  | some i => pure i
  | none => throwE FError.NotFound

def localPutInterface (i : VirtualInterface) : M Unit := fun s =>
  (Except.ok (), { s with localIfaces := cput s.localIfaces i.uuid i },
    [Effect.catPutIface i])

def localRemoveInterface (u : Uuid) : M Unit := fun s =>
  (Except.ok (), { s with localIfaces := cdel s.localIfaces u },
    [Effect.catDelIface u])

def localGetNetworkOpt (u : Uuid) : M (Option VirtualNetwork) := fun s =>
  (Except.ok (cget s.localNets u), s, [])

def localGetNetwork (u : Uuid) : M VirtualNetwork := do
  match ← localGetNetworkOpt u with
  | some n => pure n
  | none => throwE FError.NotFound

def localPutNetwork (n : VirtualNetwork) : M Unit := fun s =>
  (Except.ok (), { s with localNets := cput s.localNets n.uuid n },
    [Effect.catPutNet n])

def localRemoveNetwork (u : Uuid) : M Unit := fun s =>
  (Except.ok (), { s with localNets := cdel s.localNets u },
    [Effect.catDelNet u])

def localGetNetnsOpt (u : Uuid) : M (Option NetworkNamespace) := fun s =>
  (Except.ok (cget s.localNss u), s, [])

def localGetNetns (u : Uuid) : M NetworkNamespace := do
  match ← localGetNetnsOpt u with
  | some n => pure n
  | none => throwE FError.NotFound

def localPutNetns (n : NetworkNamespace) : M Unit := fun s =>
  (Except.ok (), { s with localNss := cput s.localNss n.uuid n },
    [Effect.catPutNetns n])

def localRemoveNetns (u : Uuid) : M Unit := fun s =>
  (Except.ok (), { s with localNss := cdel s.localNss u },
    [Effect.catDelNetns u])

def globalGetNetworkOpt (u : Uuid) : M (Option VirtualNetwork) := fun s =>
  (Except.ok (cget s.globalNets u), s, [])

/-! ### Agent / config / RNG oracles -/

/-- Model of `self.agent…get_node_uuid()`, the agent collaborator's answer. -/
def get_node_uuid : M Uuid := fun s => (Except.ok s.config.nodeUuid, s, [])

def getConfig : M LNConfig := fun s => (Except.ok s.config, s, [])

/-- Model of `self.get_run_path()`. -/
def get_run_path : M String := fun s => (Except.ok s.config.run_path, s, [])

/-- Model of `Path::join` on string paths. -/
def pathJoin (p q : String) : String := p ++ "/" ++ q

/-- Model of `Uuid::new_v4()` — fresh, never nil. -/
def freshUuid : M Uuid := fun s =>
  (Except.ok (s.uuidCtr + 1), { s with uuidCtr := s.uuidCtr + 1 }, [])

/-- Draw `n` RNG samples. -/
def takeEntropy (n : Nat) : M (List (Fin 62)) := fun s =>
  (Except.ok (s.entropy.take n), { s with entropy := s.entropy.drop n }, [])

def genIfaceName : M String := do
  let p ← takeEntropy 8
  pure (generate_random_interface_name p)

def genNetnsName : M String := do
  let p ← takeEntropy 8
  pure (generate_random_netns_name p)

def genTableName : M String := do
  let p ← takeEntropy 10
  pure (generate_random_nft_table_name p)

/-! ### Netlink driver operations (orchestrator granularity) -/
def create_bridge (name : String) : M Unit := extCall (Effect.createBridge name)

def create_veth (iface_i iface_e : String) : M Unit :=
  extCall (Effect.createVeth iface_i iface_e)

def create_vlan (iface dev : String) (tag : Nat) : M Unit :=
  extCall (Effect.createVlan iface dev tag)

def create_mcast_vxlan (iface dev : String) (vni : Nat) (mcast_addr : IPAddress)
    (port : Nat) : M Unit :=
  extCall (Effect.createMcastVxlan iface dev vni mcast_addr port)

def create_ptp_vxlan (iface dev : String) (vni : Nat)
    (local_addr remote_addr : IPAddress) (port : Nat) : M Unit :=
  extCall (Effect.createPtpVxlan iface dev vni local_addr remote_addr port)

def del_iface (iface : String) : M Unit := extCall (Effect.delIface iface)

def set_iface_master (iface master : String) : M Unit :=
  extCall (Effect.setIfaceMaster iface master)

def del_iface_master (iface : String) : M Unit :=
  extCall (Effect.delIfaceMaster iface)

def set_iface_up (iface : String) : M Unit := extCall (Effect.setIfaceUp iface)

def add_iface_address (iface : String) (addr : IPAddress) (pfx : Nat) : M Unit :=
  extCall (Effect.addIfaceAddress iface addr pfx)

def set_iface_ns (iface netns : String) : M Unit :=
  extCall (Effect.setIfaceNs iface netns)

def add_netns (ns_name : String) : M Unit := extCall (Effect.addNetns ns_name)

def del_netns (ns_name : String) : M Unit := extCall (Effect.delNetns ns_name)

/-- Model of `get_iface_addresses`: a netlink read answered by the kernel table
(`NotFound` when the link does not exist). -/
def get_iface_addresses (iface : String) : M (List IPAddress) := fun s =>
  match cget s.kernelAddrs iface with
  | some l => (Except.ok l, s, [])
  | none => (Except.error FError.NotFound, s, [])

/-- Model of `get_overlay_face_from_config`: `NotFound` when the config names no
overlay interface, else the interface with its kernel addresses
(`get_iface_addresses`, also `NotFound` when the link is unknown). -/
def get_overlay_face_from_config : M Interface := fun s =>
  match s.config.overlay_iface with
  | none => (Except.error FError.NotFound, s, [])
  | some n =>
    match cget s.kernelAddrs n with
    | none => (Except.error FError.NotFound, s, [])
    | some addrs =>
      (Except.ok { if_name := n, kind := InterfaceKind.ETHERNET,
                   addresses := addrs, phy_address := none }, s, [])

def get_overlay_iface : M String := do
  let f ← get_overlay_face_from_config
  pure f.if_name

/-! ### Worker supervisor and worker RPCs -/

/-- Model of `spawn_ns_manager`: launch the worker binary (fallible) and insert
`(ns uuid ↦ (pid, client))` into the supervisor map. -/
def spawn_ns_manager (ns_name : String) (ns_uuid : Uuid) : M Unit := fun s =>
  match s.ioRes s.ioIdx with
  | Except.ok _ =>
    (Except.ok (),
      { s with ioIdx := s.ioIdx + 1,
               nsManagers := cput s.nsManagers ns_uuid s.pidCtr,
               pidCtr := s.pidCtr + 1 },
      [Effect.spawnNsManager ns_name ns_uuid])
  | Except.error e =>
    (Except.error e, { s with ioIdx := s.ioIdx + 1 },
      [Effect.spawnNsManager ns_name ns_uuid])

/-- Model of `get_ns_manager`: look the client up; the client handle is identified
by the namespace uuid it is bound to. -/
def get_ns_manager (ns_uuid : Uuid) : M Uuid := fun s =>
  match cget s.nsManagers ns_uuid with
  | some _ => (Except.ok ns_uuid, s, [])
  | none => (Except.error (FError.NetworkingError "Manager not found"), s, [])

/-- Model of `remove_ns_manager`: remove and return the supervisor entry. -/
def remove_ns_manager (ns_uuid : Uuid) : M Nat := fun s =>
  match cget s.nsManagers ns_uuid with
  | some pid =>
    (Except.ok pid, { s with nsManagers := cdel s.nsManagers ns_uuid }, [])
  | none => (Except.error (FError.NetworkingError "Manager not found"), s, [])

/-- Model of `kill_ns_manager` = remove + SIGTERM (fallible). -/
def kill_ns_manager (ns_uuid : Uuid) : M Unit := do
  let _pid ← remove_ns_manager ns_uuid
  extCall (Effect.killNsManager ns_uuid)

def w_del_virtual_interface (mgr : Uuid) (name : String) : M (Except FError Unit) :=
  wcall (Effect.wDelIface mgr name)

def w_set_virtual_interface_up (mgr : Uuid) (name : String) : M Unit := do
  let r ← wcall (Effect.wSetIfaceUp mgr name)
  liftInner r

def w_add_virtual_interface_bridge (mgr : Uuid) (name : String) : M Unit := do
  let r ← wcall (Effect.wAddBridge mgr name)
  liftInner r

def w_set_virtual_interface_master (mgr : Uuid) (iface master : String) : M Unit := do
  let r ← wcall (Effect.wSetMaster mgr iface master)
  liftInner r

def w_move_virtual_interface_into_default_ns (mgr : Uuid) (name : String) : M Unit := do
  let r ← wcall (Effect.wMoveToDefault mgr name)
  liftInner r

/-- Consume readiness polls until one answers `true` (empty stream =
ready); returns (number of polls, remaining stream). -/
def verifyConsume : List Bool → Nat × List Bool
  | [] => (1, [])
  | true :: r => (1, r)
  | false :: r =>
    let p := verifyConsume r
    (p.1 + 1, p.2)

/-- Model of the loop `while !ns_manager.verify_server().await? {}`. -/
def wait_verify_server (mgr : Uuid) : M Unit := fun s =>
  let p := verifyConsume s.vRes
  (Except.ok (), { s with vRes := p.2 },
    List.replicate p.1 (Effect.wVerifyServer mgr))

/-! ### DHCP manager and NAT driver (orchestrator granularity) -/

/-- The dnsmasq template is rendered by the external template engine; the
rendered text is modelled as a deterministic function of the context. -/
def dnsmasqRender (iface pid_file lease_file log_file : String) : String :=
  String.intercalate "\n"
    ["interface=" ++ iface, "pid=" ++ pid_file, "leases=" ++ lease_file,
     "log=" ++ log_file]

/-- Model of `create_dnsmasq_config` (template load/render is fallible). -/
def create_dnsmasq_config (iface pid_file lease_file log_file : String)
    (_dhcp_start _dhcp_end _default_gw _default_dns : IPAddress) : M String := do
  extCall (Effect.renderDnsmasq iface)
  pure (dnsmasqRender iface pid_file lease_file log_file)

/-- Model of `OSClient::store_file` through the OS collaborator. -/
def store_file (pth : String) : M Unit := extCall (Effect.storeFile pth)

/-- Model of `spawn_dnsmasq`: start the detached daemon, returning its pid. -/
def spawn_dnsmasq (conf : String) : M Nat := fun s =>
  match s.ioRes s.ioIdx with
  | Except.ok _ =>
    (Except.ok s.pidCtr,
      { s with ioIdx := s.ioIdx + 1, pidCtr := s.pidCtr + 1 },
      [Effect.spawnDnsmasq conf])
  | Except.error e =>
    (Except.error e, { s with ioIdx := s.ioIdx + 1 },
      [Effect.spawnDnsmasq conf])

/-- Model of `configure_nat`: fresh random table name, one transactional batch. -/
def configure_nat (ip : IPAddress) (pfx : Nat) (iface : String) : M String := do
  let table_name ← genTableName
  extCall (Effect.natConfigure ip pfx iface)
  pure table_name

/-- Model of `clean_nat`. -/
def clean_nat (table_name : String) : M Unit :=
  extCall (Effect.natClean table_name)

/-! ## Public orchestrator operations -/

/-- Model of `NetworkingPlugin::delete_virtual_interface`.  In-namespace interfaces
are deleted through the namespace worker; a worker error on a VETH whose
peer record is already gone is tolerated (the scavenger rule) and — note —
returns `Ok` *without* removing the interface's own catalog record. -/
def delete_virtual_interface (intf_uuid : Uuid) : M VirtualInterface := do
  let _node ← get_node_uuid
  match ← localGetInterfaceOpt intf_uuid with
  | none => throwE FError.NotFound
  | some intf =>
    match intf.net_ns with
    | some ns_uuid => do
      let _netns ← localGetNetns ns_uuid
      let mgr ← get_ns_manager ns_uuid
      let res ← w_del_virtual_interface mgr intf.if_name
      match res with
      | Except.error e =>
        match intf.kind with
        | VirtualInterfaceKind.VETH info => do
          match ← localGetInterfaceOpt info.pair with
          | none => pure intf
          | some _ =>
            throwE (FError.NetworkingError
              "Veth peer not removed but interface not found in namespace")
        | _ => throwE e
      | Except.ok _ => do
        localRemoveInterface intf_uuid
        pure intf
    | none => do
      (match intf.kind with
       | VirtualInterfaceKind.VETH info => do
         (match ← localGetInterfaceOpt info.pair with
          | some pair => do
            attempt (del_iface intf.if_name)
            attempt (del_iface pair.if_name)
            localRemoveInterface info.pair
          | none => attempt (del_iface intf.if_name))
       | _ => del_iface intf.if_name)
      localRemoveInterface intf_uuid
      pure intf

/-- Model of `NetworkingPlugin::delete_network_namespace`: delete the kernel netns,
kill its worker, drop the catalog record. -/
def delete_network_namespace (ns_uuid : Uuid) : M NetworkNamespace := do
  let _node ← get_node_uuid
  match ← localGetNetnsOpt ns_uuid with
  | none => throwE FError.NotFound
  | some netns => do
    del_netns netns.ns_name
    kill_ns_manager netns.uuid
    localRemoveNetns ns_uuid
    pure netns

/-- The `for i in &vnet.interfaces { self.delete_virtual_interface(*i).await? }`
loop of `delete_virtual_network`. -/
def deleteInterfacesLoop : List Uuid → M Unit
  | [] => M.pure ()
  | i :: r => do
    let _ ← delete_virtual_interface i
    deleteInterfacesLoop r

/-- Model of `NetworkingPlugin::delete_virtual_network`.  NB the source deletes all
the listed interfaces *before* checking `connection_points`. -/
def delete_virtual_network (vnet_uuid : Uuid) : M VirtualNetwork := do
  let _node ← get_node_uuid
  match ← localGetNetworkOpt vnet_uuid with
  | none => throwE FError.NotFound
  | some vnet => do
    deleteInterfacesLoop vnet.interfaces
    if vnet.connection_points.isEmpty then pure ()
    else throwE (FError.NetworkingError
      "Cannot remove virtual network that has attached connection points")
    (match vnet.plugin_internals with
     | some pl =>
       (match (deserialize_network_internals pl).associated_netns with
        | some ns_info => do
          let _ ← delete_network_namespace ns_info.ns_uuid
          pure ()
        | none => pure ())
     | none => pure ())
    localRemoveNetwork vnet_uuid
    pure vnet

/-- Model of `NetworkingPlugin::move_interface_info_namespace`.  When the interface
already lives in a namespace, the worker of the *destination* namespace is
asked to move it out, the old namespace record is rewritten — and the
mutated destination record is never persisted (see `_newns_mutated`). -/
def move_interface_info_namespace (intf_uuid ns_uuid : Uuid) : M VirtualInterface := do
  let _node ← get_node_uuid
  let iface ← localGetInterface intf_uuid
  match iface.net_ns with
  | some old_ns_uuid => do
    let netns ← localGetNetns old_ns_uuid
    let newns ← localGetNetns ns_uuid
    match netns.interfaces.findIdx? (fun x => x = intf_uuid) with
    | some p => do
      let mgr ← get_ns_manager ns_uuid
      w_move_virtual_interface_into_default_ns mgr iface.if_name
      let netns2 := { netns with interfaces := netns.interfaces.eraseIdx p }
      set_iface_ns iface.if_name newns.ns_name
      let iface2 := { iface with net_ns := some newns.uuid }
      let _newns_mutated :=
        { newns with interfaces := newns.interfaces ++ [iface2.uuid] }
      localPutInterface iface2
      localPutNetns netns2
      pure iface2
    | none => throwE FError.NotConnected
  | none => do
    let netns ← localGetNetns ns_uuid
    set_iface_ns iface.if_name netns.ns_name
    let iface2 := { iface with net_ns := some netns.uuid }
    let netns2 := { netns with interfaces := netns.interfaces ++ [iface2.uuid] }
    localPutInterface iface2
    localPutNetns netns2
    pure iface2

/-- Model of `NetworkingPlugin::move_interface_into_default_namespace`. -/
def move_interface_into_default_namespace (intf_uuid : Uuid) : M VirtualInterface := do
  let _node ← get_node_uuid
  let iface ← localGetInterface intf_uuid
  match iface.net_ns with
  | some netns_uuid => do
    let netns ← localGetNetns netns_uuid
    let mgr ← get_ns_manager netns_uuid
    w_move_virtual_interface_into_default_ns mgr iface.if_name
    let iface2 := { iface with net_ns := none }
    localPutInterface iface2
    match netns.interfaces.findIdx? (fun x => x = iface.uuid) with
    | some p => do
      localPutNetns { netns with interfaces := netns.interfaces.eraseIdx p }
      pure iface2
    | none => throwE FError.NotConnected
  | none => pure iface

/-- Model of `NetworkingPlugin::create_default_virtual_network`. -/
def create_default_virtual_network (dhcp : Bool) : M VirtualNetwork := do
  let _node ← get_node_uuid
  let default_net_uuid : Uuid := 0
  let default_br_uuid : Uuid := 0
  let default_br_name := "fosbr0"
  let default_vxl_uuid ← freshUuid
  let default_vxl_name := "fosvxl0"
  let default_vni : Nat := 3845
  let default_mcast_addr := IPAddress.v4 239 15 5 0
  let default_port : Nat := 3845
  let ext_if_name ← get_overlay_iface
  let base_vnet : VirtualNetwork :=
    { uuid := default_net_uuid, id := "fos-default",
      name := some "Eclipse fog05 default virtual network",
      is_mgmt := false,
      link_kind := LinkKind.L2
        { vni := default_vni, mcast_addr := default_mcast_addr,
          port := default_port },
      ip_version := IPVersion.IPV4, ip_configuration := none,
      connection_points := [],
      interfaces := [default_br_uuid, default_vxl_uuid],
      plugin_internals := none }
  let ip_conf : IPConfiguration :=
    { subnet := some (IPAddress.v4 10 240 0 0, 16),
      gateway := some (IPAddress.v4 10 240 0 1),
      dhcp_range := some (IPAddress.v4 10 240 0 2, IPAddress.v4 10 240 255 254),
      dns := some [IPAddress.v4 208 67 222 222] }
  let vnet1 :=
    if dhcp then { base_vnet with ip_configuration := some ip_conf }
    else base_vnet
  let v_bridge : VirtualInterface :=
    { uuid := default_br_uuid, if_name := default_br_name, net_ns := none,
      parent := none,
      kind := VirtualInterfaceKind.BRIDGE { childs := [default_vxl_uuid] },
      addresses := [], phy_address := macZero }
  create_bridge default_br_name
  set_iface_up default_br_name
  let v_vxl : VirtualInterface :=
    { uuid := default_vxl_uuid, if_name := default_vxl_name, net_ns := none,
      parent := some default_br_uuid,
      kind := VirtualInterfaceKind.VXLAN
        { vni := default_vni, mcast_addr := default_mcast_addr,
          port := default_port,
          dev := { if_name := ext_if_name, kind := InterfaceKind.ETHERNET,
                   addresses := [], phy_address := none } },
      addresses := [], phy_address := macZero }
  create_mcast_vxlan default_vxl_name ext_if_name default_vni
    default_mcast_addr default_port
  set_iface_master default_vxl_name default_br_name
  set_iface_up default_vxl_name
  add_iface_address default_br_name (IPAddress.v4 10 240 0 1) 16
  let dhcp_internal ←
    if dhcp then do
      let run ← get_run_path
      let lease_file_path := pathJoin run "fosbr0.leases"
      let pid_file_path := pathJoin run "fosbr0.pid"
      let log_file_path := pathJoin run "fosbr0.log"
      let conf_file_path := pathJoin run "fosbr0.conf"
      let _cfg ← create_dnsmasq_config default_br_name pid_file_path
        lease_file_path log_file_path (IPAddress.v4 10 240 0 2)
        (IPAddress.v4 10 240 255 254) (IPAddress.v4 10 240 0 1)
        (IPAddress.v4 208 67 222 222)
      store_file conf_file_path
      let _child ← spawn_dnsmasq conf_file_path
      pure (some
        ({ leases_file := lease_file_path, pid_file := pid_file_path,
           conf := conf_file_path, log_file := log_file_path } : VNetDHCP))
    else pure none
  let ovl ← get_overlay_face_from_config
  let nat_table ← configure_nat (IPAddress.v4 10 240 0 0) 16 ovl.if_name
  localPutInterface v_bridge
  localPutInterface v_vxl
  let internals : VirtualNetworkInternals :=
    { associated_netns := none, dhcp := dhcp_internal,
      associated_tables := [nat_table] }
  let vnet2 :=
    { vnet1 with plugin_internals := some (serialize_network_internals internals) }
  localPutNetwork vnet2
  pure vnet2

/-- Model of `LinuxNetwork::mcast_vxlan_create`: the multicast-VXLAN construct
template (outer bridge; VXLAN on the overlay attached to it; namespace +
worker; veth pair, external end on the outer bridge, internal end moved
into the namespace; inner bridge wired by the worker). -/
def mcast_vxlan_create (vnet : VirtualNetwork) (vxlan_info : MCastVXLANInfo) :
    M VirtualNetwork := do
  let _node ← get_node_uuid
  let br_uuid ← freshUuid
  let br_name ← genIfaceName
  let vxl_uuid ← freshUuid
  let vxl_name ← genIfaceName
  let internal_br_uuid ← freshUuid
  let internal_br_name ← genIfaceName
  let internal_veth_uuid ← freshUuid
  let internal_veth_name ← genIfaceName
  let external_veth_uuid ← freshUuid
  let external_veth_name ← genIfaceName
  let ns_name ← genNetnsName
  let associated_ns : NetworkNamespace :=
    { uuid := vnet.uuid, ns_name := ns_name,
      interfaces := [external_veth_uuid, internal_veth_uuid,
        internal_br_uuid, vxl_uuid, br_uuid] }
  let v_bridge : VirtualInterface :=
    { uuid := br_uuid, if_name := br_name, net_ns := none, parent := none,
      kind := VirtualInterfaceKind.BRIDGE
        { childs := [external_veth_uuid, vxl_uuid] },
      addresses := [], phy_address := macZero }
  let v_internal_bridge : VirtualInterface :=
    { uuid := internal_br_uuid, if_name := internal_br_name,
      net_ns := some associated_ns.uuid, parent := none,
      kind := VirtualInterfaceKind.BRIDGE { childs := [internal_veth_uuid] },
      addresses := [], phy_address := macZero }
  let ovl1 ← get_overlay_iface
  let vxl_iface : VirtualInterface :=
    { uuid := vxl_uuid, if_name := vxl_name, net_ns := none,
      parent := some br_uuid,
      kind := VirtualInterfaceKind.VXLAN
        { vni := vxlan_info.vni, mcast_addr := vxlan_info.mcast_addr,
          port := vxlan_info.port,
          dev := { if_name := ovl1, kind := InterfaceKind.ETHERNET,
                   addresses := [], phy_address := none } },
      addresses := [], phy_address := macZero }
  let v_veth_i : VirtualInterface :=
    { uuid := internal_veth_uuid, if_name := internal_veth_name,
      net_ns := some associated_ns.uuid, parent := some internal_br_uuid,
      kind := VirtualInterfaceKind.VETH
        { pair := external_veth_uuid, internal := true },
      addresses := [], phy_address := macZero }
  let v_veth_e : VirtualInterface :=
    { uuid := external_veth_uuid, if_name := external_veth_name,
      net_ns := none, parent := some br_uuid,
      kind := VirtualInterfaceKind.VETH
        { pair := internal_veth_uuid, internal := false },
      addresses := [], phy_address := macZero }
  create_bridge br_name
  localPutInterface v_bridge
  let vnet1 := { vnet with interfaces := vnet.interfaces ++ [br_uuid] }
  set_iface_up br_name
  let ovl2 ← get_overlay_iface
  create_mcast_vxlan vxl_name ovl2 vxlan_info.vni vxlan_info.mcast_addr
    vxlan_info.port
  localPutInterface vxl_iface
  let vnet2 := { vnet1 with interfaces := vnet1.interfaces ++ [vxl_uuid] }
  set_iface_master vxl_name br_name
  set_iface_up vxl_name
  add_netns associated_ns.ns_name
  spawn_ns_manager associated_ns.ns_name associated_ns.uuid
  localPutNetns associated_ns
  create_veth external_veth_name internal_veth_name
  localPutInterface v_veth_e
  let vnet3 := { vnet2 with interfaces := vnet2.interfaces ++ [internal_veth_uuid] }
  localPutInterface v_veth_i
  let vnet4 := { vnet3 with interfaces := vnet3.interfaces ++ [external_veth_uuid] }
  set_iface_master external_veth_name br_name
  set_iface_up external_veth_name
  set_iface_ns internal_veth_name associated_ns.ns_name
  let mgr ← get_ns_manager associated_ns.uuid
  wait_verify_server mgr
  w_set_virtual_interface_up mgr "lo"
  w_add_virtual_interface_bridge mgr internal_br_name
  w_set_virtual_interface_up mgr internal_br_name
  let vnet5 := { vnet4 with interfaces := vnet4.interfaces ++ [internal_br_uuid] }
  localPutInterface v_internal_bridge
  w_set_virtual_interface_master mgr internal_veth_name internal_br_name
  w_set_virtual_interface_up mgr internal_veth_name
  let dhcp_internal : Option VNetDHCP :=
    match vnet.ip_configuration with
    | some _ => none
    | none => none
  let ns_info : Option VNetNetns :=
    some { ns_name := associated_ns.ns_name, ns_uuid := associated_ns.uuid }
  let internals : VirtualNetworkInternals :=
    { associated_netns := ns_info, dhcp := dhcp_internal,
      associated_tables := [] }
  pure { vnet5 with plugin_internals := some (serialize_network_internals internals) }

/-- Model of `LinuxNetwork::ptp_vxlan_create`: the point-to-point-VXLAN construct
template; identical to `mcast_vxlan_create` except for the VXLAN creation
step (local/remote peer addresses instead of a multicast group). -/
def ptp_vxlan_create (vnet : VirtualNetwork) (vxlan_info : P2PVXLANInfo) :
    M VirtualNetwork := do
  let _node ← get_node_uuid
  let br_uuid ← freshUuid
  let br_name ← genIfaceName
  let vxl_uuid ← freshUuid
  let vxl_name ← genIfaceName
  let internal_br_uuid ← freshUuid
  let internal_br_name ← genIfaceName
  let internal_veth_uuid ← freshUuid
  let internal_veth_name ← genIfaceName
  let external_veth_uuid ← freshUuid
  let external_veth_name ← genIfaceName
  let ns_name ← genNetnsName
  let associated_ns : NetworkNamespace :=
    { uuid := vnet.uuid, ns_name := ns_name,
      interfaces := [external_veth_uuid, internal_veth_uuid,
        internal_br_uuid, vxl_uuid, br_uuid] }
  let v_bridge : VirtualInterface :=
    { uuid := br_uuid, if_name := br_name, net_ns := none, parent := none,
      kind := VirtualInterfaceKind.BRIDGE
        { childs := [external_veth_uuid, vxl_uuid] },
      addresses := [], phy_address := macZero }
  let v_internal_bridge : VirtualInterface :=
    { uuid := internal_br_uuid, if_name := internal_br_name,
      net_ns := some associated_ns.uuid, parent := none,
      kind := VirtualInterfaceKind.BRIDGE { childs := [internal_veth_uuid] },
      addresses := [], phy_address := macZero }
  let ovl1 ← get_overlay_iface
  let vxl_iface : VirtualInterface :=
    { uuid := vxl_uuid, if_name := vxl_name, net_ns := none,
      parent := some br_uuid,
      kind := VirtualInterfaceKind.VXLAN
        { vni := vxlan_info.vni, mcast_addr := vxlan_info.remote_addr,
          port := vxlan_info.port,
          dev := { if_name := ovl1, kind := InterfaceKind.ETHERNET,
                   addresses := [], phy_address := none } },
      addresses := [], phy_address := macZero }
  let v_veth_i : VirtualInterface :=
    { uuid := internal_veth_uuid, if_name := internal_veth_name,
      net_ns := some associated_ns.uuid, parent := some internal_br_uuid,
      kind := VirtualInterfaceKind.VETH
        { pair := external_veth_uuid, internal := true },
      addresses := [], phy_address := macZero }
  let v_veth_e : VirtualInterface :=
    { uuid := external_veth_uuid, if_name := external_veth_name,
      net_ns := none, parent := some br_uuid,
      kind := VirtualInterfaceKind.VETH
        { pair := internal_veth_uuid, internal := false },
      addresses := [], phy_address := macZero }
  create_bridge br_name
  localPutInterface v_bridge
  let vnet1 := { vnet with interfaces := vnet.interfaces ++ [br_uuid] }
  set_iface_up br_name
  let ovl_face ← get_overlay_face_from_config
  let overlay_iface_address ←
    match ovl_face.addresses.head? with
    | some a => pure a
    | none => throwE FError.NotFound
  let ovl2 ← get_overlay_iface
  create_ptp_vxlan vxl_name ovl2 vxlan_info.vni overlay_iface_address
    vxlan_info.remote_addr vxlan_info.port
  localPutInterface vxl_iface
  let vnet2 := { vnet1 with interfaces := vnet1.interfaces ++ [vxl_uuid] }
  set_iface_master vxl_name br_name
  set_iface_up vxl_name
  add_netns associated_ns.ns_name
  spawn_ns_manager associated_ns.ns_name associated_ns.uuid
  localPutNetns associated_ns
  create_veth external_veth_name internal_veth_name
  localPutInterface v_veth_e
  let vnet3 := { vnet2 with interfaces := vnet2.interfaces ++ [internal_veth_uuid] }
  localPutInterface v_veth_i
  let vnet4 := { vnet3 with interfaces := vnet3.interfaces ++ [external_veth_uuid] }
  set_iface_master external_veth_name br_name
  set_iface_up external_veth_name
  set_iface_ns internal_veth_name associated_ns.ns_name
  let mgr ← get_ns_manager associated_ns.uuid
  wait_verify_server mgr
  w_set_virtual_interface_up mgr "lo"
  w_add_virtual_interface_bridge mgr internal_br_name
  w_set_virtual_interface_up mgr internal_br_name
  let vnet5 := { vnet4 with interfaces := vnet4.interfaces ++ [internal_br_uuid] }
  localPutInterface v_internal_bridge
  w_set_virtual_interface_master mgr internal_veth_name internal_br_name
  w_set_virtual_interface_up mgr internal_veth_name
  let dhcp_internal : Option VNetDHCP :=
    match vnet.ip_configuration with
    | some _ => none
    | none => none
  let ns_info : Option VNetNetns :=
    some { ns_name := associated_ns.ns_name, ns_uuid := associated_ns.uuid }
  let internals : VirtualNetworkInternals :=
    { associated_netns := ns_info, dhcp := dhcp_internal,
      associated_tables := [] }
  pure { vnet5 with plugin_internals := some (serialize_network_internals internals) }

/-- Model of `NetworkingPlugin::create_virtual_network`: re-entry returns the local
record; otherwise the desired parameters come from the global catalog and
the construct is dispatched on `link_kind`. -/
def create_virtual_network (vnet_uuid : Uuid) : M VirtualNetwork := do
  let _node ← get_node_uuid
  match ← globalGetNetworkOpt vnet_uuid with
  | some vnet =>
    (match ← localGetNetworkOpt vnet_uuid with
     | some net => pure net
     | none =>
       match vnet.link_kind with
       | LinkKind.L2 info => do
         let vnet2 ← mcast_vxlan_create vnet info
         localPutNetwork vnet2
         pure vnet2
       | LinkKind.ELINE info => do
         let vnet2 ← ptp_vxlan_create vnet info
         localPutNetwork vnet2
         pure vnet2
       | LinkKind.unsupported => throwE FError.Unimplemented)
  | none => throwE FError.NotFound

/-! ## Invariants -/

/-- Spec invariant I4 / P3: for every namespace `N` and interface `I` in
the local catalog, `I.net_ns = some N.uuid ↔ I.uuid ∈ N.interfaces`. -/
def nsInvariant (s : PState) : Prop :=
  ∀ pn ∈ s.localNss, ∀ pi ∈ s.localIfaces,
    (pi.2.net_ns = some pn.2.uuid ↔ pi.2.uuid ∈ pn.2.interfaces)

instance (s : PState) : Decidable (nsInvariant s) := by
  unfold nsInvariant
  infer_instance

/-! ## Base fixtures for concrete runs -/

/-- A plugin configuration with overlay interface `eth0`. -/
def cfg0 : LNConfig :=
  { nodeUuid := 900, overlay_iface := some "eth0",
    dataplane_iface := some "eth1",
    run_path := "/var/fos/linuxnet/run", path := "/etc/fos/linuxnet" }

/-- All external calls succeed. -/
def allOk : Nat → Except FError Unit := fun _ => Except.ok ()

/-- All worker RPCs reach the worker and the worker reports success. -/
def allOkW : Nat → Except FError (Except FError Unit) :=
  fun _ => Except.ok (Except.ok ())

/-- An empty catalog over a healthy node. -/
def st0 : PState :=
  { localIfaces := [], localNets := [], localNss := [], globalNets := [],
    nsManagers := [], kernelAddrs := [("eth0", [IPAddress.v4 192 0 2 3])],
    config := cfg0, uuidCtr := 100, pidCtr := 500, entropy := [],
    ioRes := allOk, ioIdx := 0, wRes := allOkW, wIdx := 0, vRes := [] }

/-- An interface living in namespace 21. -/
def c2_iface : VirtualInterface :=
  { uuid := 11, if_name := "vethx", net_ns := some 21, parent := none,
    kind := VirtualInterfaceKind.BRIDGE { childs := [] },
    addresses := [], phy_address := macZero }

/-- Namespace 21, holding interface 11. -/
def c2_ns1 : NetworkNamespace := { uuid := 21, ns_name := "ns-aaaaaaaa", interfaces := [11] }

/-- Namespace 22, empty. -/
def c2_ns2 : NetworkNamespace := { uuid := 22, ns_name := "ns-bbbbbbbb", interfaces := [] }

/-- Catalog satisfying I4, with a worker for the destination namespace. -/
def c2_state : PState :=
  { st0 with localIfaces := [(11, c2_iface)],
             localNss := [(21, c2_ns1), (22, c2_ns2)],
             nsManagers := [(22, 600)] }

/-- The record the call returns (and persists): moved into namespace 22. -/
def c2_moved : VirtualInterface := { c2_iface with net_ns := some 22 }

/-- A kernel that answers −16 three times, then succeeds. -/
def c3_oracle : Nat → NlOutcome :=
  fun n => if n < 3 then NlOutcome.busy else NlOutcome.ok

/-- A kernel that answers −16 on the first attempt, then succeeds. -/
def c4_oracle : Nat → NlOutcome :=
  fun n => if n = 0 then NlOutcome.busy else NlOutcome.ok

/-- The interface of the C8/C10 scenario: a VETH in namespace 41 whose
peer (32) has already vanished from the catalog. -/
def c8_info : VETHKind := { pair := 32, internal := true }

def c8_iface : VirtualInterface :=
  { uuid := 31, if_name := "vthi", net_ns := some 41, parent := none,
    kind := VirtualInterfaceKind.VETH c8_info, addresses := [],
    phy_address := macZero }

def c8_ns : NetworkNamespace :=
  { uuid := 41, ns_name := "ns-cccccccc", interfaces := [31] }

/-- The worker reaches the namespace but reports a deletion error. -/
def c8_wErr : Nat → Except FError (Except FError Unit) :=
  fun _ => Except.ok (Except.error (FError.NetworkingError "no such iface"))

def c8_state : PState :=
  { st0 with localIfaces := [(31, c8_iface)], localNss := [(41, c8_ns)],
             nsManagers := [(41, 601)], wRes := c8_wErr }

/-- The same scenario with the peer record still present. -/
def c8_pair : VirtualInterface :=
  { uuid := 32, if_name := "vthe", net_ns := some 41, parent := none,
    kind := VirtualInterfaceKind.VETH { pair := 31, internal := false },
    addresses := [], phy_address := macZero }

def c8_state2 : PState :=
  { c8_state with localIfaces := [(31, c8_iface), (32, c8_pair)] }

/-- The C8 scenario with a worker that deletes successfully. -/
def c10_okstate : PState := { c8_state with wRes := allOkW }

/-- An out-of-namespace bridge to exercise the ordinary deletion path. -/
def c10_iface3 : VirtualInterface :=
  { uuid := 51, if_name := "brz", net_ns := none, parent := none,
    kind := VirtualInterfaceKind.BRIDGE { childs := [] },
    addresses := [], phy_address := macZero }

def c10_state3 : PState := { st0 with localIfaces := [(51, c10_iface3)] }

/-- The state after deleting interface 51 out of namespace. -/
def c10_state3' : PState := { c10_state3 with localIfaces := [], ioIdx := 1 }

/-- Holds when `m` never changes the local network table. -/
def PNets {α : Type} (m : M α) : Prop :=
  ∀ s, ((m s).2.1).localNets = s.localNets

/-- The network of the C1 counterexample: one resolvable interface, one
connection point. -/
def c1_iface : VirtualInterface :=
  { uuid := 5, if_name := "brx", net_ns := none, parent := none,
    kind := VirtualInterfaceKind.BRIDGE { childs := [] },
    addresses := [], phy_address := macZero }

def c1_net : VirtualNetwork :=
  { uuid := 7, id := "netone", name := none, is_mgmt := false,
    link_kind := LinkKind.unsupported, ip_version := IPVersion.IPV4,
    ip_configuration := none, connection_points := [9], interfaces := [5],
    plugin_internals := none }

def c1_state : PState :=
  { st0 with localIfaces := [(5, c1_iface)], localNets := [(7, c1_net)] }

/-- Forget the VXLAN variant payload inside an interface record (the
`mcast_addr` field holds the multicast group in the L2 construct and the
remote peer address in the ELINE construct). -/
def scrubVxlan (rec : VirtualInterface) : VirtualInterface :=
  match rec.kind with
  | VirtualInterfaceKind.VXLAN k =>
    let k2 : VXLANKind := { k with mcast_addr := IPAddress.v4 0 0 0 0 }
    { rec with kind := VirtualInterfaceKind.VXLAN k2 }
  | _ => rec

/-- Collapse the VXLAN-creation step of a trace to its payload-free shape:
the two construct procedures must agree after this erasure. -/
def eraseVxlanPayload : Effect → Effect
  | Effect.createMcastVxlan i d vni _ p => Effect.vxlanStep i d vni p
  | Effect.createPtpVxlan i d vni _ _ p => Effect.vxlanStep i d vni p
  | Effect.catPutIface rec => Effect.catPutIface (scrubVxlan rec)
  | e => e

/-- A desired network record as the global catalog would supply it. -/
def c7_vnet : VirtualNetwork :=
  { uuid := 70, id := "netseven", name := none, is_mgmt := false,
    link_kind := LinkKind.unsupported, ip_version := IPVersion.IPV4,
    ip_configuration := none, connection_points := [], interfaces := [],
    plugin_internals := none }

instance : Inhabited VirtualNetwork := ⟨c7_vnet⟩

/-- A desired L2 network in the global catalog. -/
def c6_vnet : VirtualNetwork :=
  { uuid := 70, id := "netsix", name := none, is_mgmt := false,
    link_kind := LinkKind.L2
      { vni := 100, mcast_addr := IPAddress.v4 239 1 1 1, port := 4789 },
    ip_version := IPVersion.IPV4, ip_configuration := none,
    connection_points := [], interfaces := [], plugin_internals := none }

def c6_state : PState := { st0 with globalNets := [(70, c6_vnet)] }

/-- State `c6_state` after the network has also been realized locally. -/
def c6_state_local : PState := { c6_state with localNets := [(70, c6_vnet)] }

/-- The first call's outcome. -/
def c6_run : Except FError VirtualNetwork × PState × List Effect :=
  (create_virtual_network 70).run c6_state

def c6_n : VirtualNetwork :=
  match c6_run.1 with
  | Except.ok nn => nn
  | Except.error _ => default

/-- A node that has realized network 70 locally while the global catalog
no longer (or never) holds it. -/
def c6_cx_state : PState := { st0 with localNets := [(70, c6_vnet)] }

/-! ## Theorems -/

theorem cget_cfilter_ne {κ α : Type} [DecidableEq κ] (l : List (κ × α)) (u w : κ)
    (h : w ≠ u) : cget (cfilter l u) w = cget l w := by
  induction l with
  | nil => simp [cfilter]
  | cons p r ih =>
    rcases p with ⟨k, x⟩
    by_cases hk : k = u
    · have hkw : k ≠ w := fun hkw => h (hkw ▸ hk ▸ rfl)
      simp [cfilter, cget, hk, hkw, ih, Ne.symm h]
    · by_cases hw : k = w
      · simp [cfilter, cget, hk, hw, h]
      · simp [cfilter, cget, hk, hw, ih]

theorem cget_cfilter_same {κ α : Type} [DecidableEq κ] (l : List (κ × α)) (u : κ) :
    cget (cfilter l u) u = none := by
  induction l with
  | nil => simp [cfilter, cget]
  | cons p r ih =>
    rcases p with ⟨k, x⟩
    by_cases hk : k = u
    · simpa [cfilter, cget, hk] using ih
    · simpa [cfilter, cget, hk] using ih

theorem cget_cput_same {κ α : Type} [DecidableEq κ] (l : List (κ × α)) (u : κ) (v : α) :
    cget (cput l u v) u = some v := by
  simp [cput, cget]

theorem cget_cput_other {κ α : Type} [DecidableEq κ] (l : List (κ × α)) (u w : κ) (v : α)
    (h : w ≠ u) : cget (cput l u v) w = cget l w := by
  have hne : u ≠ w := Ne.symm h
  simp [cput, cget, hne]
  exact cget_cfilter_ne l u w h

theorem cget_cdel_same {κ α : Type} [DecidableEq κ] (l : List (κ × α)) (u : κ) :
    cget (cdel l u) u = none := cget_cfilter_same l u

theorem cget_cdel_other {κ α : Type} [DecidableEq κ] (l : List (κ × α)) (u w : κ)
    (h : w ≠ u) : cget (cdel l u) w = cget l w := cget_cfilter_ne l u w h

theorem alphanumericChar_isAlnum (i : Fin 62) :
    isAsciiAlnum (alphanumericChar i) = true := by
  fin_cases i <;> decide

theorem sampleAlphanumeric_length (pool : List (Fin 62)) (n : Nat) :
    (sampleAlphanumeric pool n).length = n := by
  simp [sampleAlphanumeric]

theorem sampleAlphanumeric_mem (pool : List (Fin 62)) (n : Nat) :
    ∀ c ∈ sampleAlphanumeric pool n, isAsciiAlnum c = true := by
  intro c hc
  simp [sampleAlphanumeric] at hc
  obtain ⟨i, _, hi⟩ := hc
  exact hi ▸ alphanumericChar_isAlnum _

/-- The sleep list of a retry run started at attempt `a ≤ 5` is an initial
segment of the exponential schedule `100·2^a, 100·2^(a+1), …`, of length at
most `6 - a`. -/
theorem netlinkRetry_sleeps (oracle : Nat → NlOutcome) :
    ∀ b a, a + b = 5 →
      ∃ k, (netlinkRetry oracle a).2 =
          (List.range k).map (fun i => 100 * 2 ^ (a + i)) ∧ a + k ≤ 6 := by
  intro b
  induction b with
  | zero =>
    intro a ha
    rw [netlinkRetry]
    cases oracle a with
    | ok => exact ⟨0, by simp, by omega⟩
    | err msg => exact ⟨0, by simp, by omega⟩
    | busy =>
      have hgt : 100 * 2 ^ (a + 1) > 5000 := by
        have h64 : (64 : Nat) ≤ 2 ^ (a + 1) := by
          calc (64 : Nat) = 2 ^ 6 := by norm_num
            _ ≤ 2 ^ (a + 1) := Nat.pow_le_pow_right (by norm_num) (by omega)
        omega
      refine ⟨1, ?_, by omega⟩
      simp [dif_pos hgt, List.range_succ]
  | succ m ih =>
    intro a ha
    rw [netlinkRetry]
    cases oracle a with
    | ok => exact ⟨0, by simp, by omega⟩
    | err msg => exact ⟨0, by simp, by omega⟩
    | busy =>
      have hle : ¬ 100 * 2 ^ (a + 1) > 5000 := by
        have h32 : 2 ^ (a + 1) ≤ 2 ^ 5 :=
          Nat.pow_le_pow_right (by norm_num) (by omega)
        have : (2 : Nat) ^ 5 = 32 := by norm_num
        omega
      obtain ⟨k, hk, hb⟩ := ih (a + 1) (by omega)
      refine ⟨k + 1, ?_, by omega⟩
      simp only [dif_neg hle]
      rw [hk, List.range_succ_eq_map, List.map_cons, List.map_map]
      congr 1
      apply List.map_congr_left
      intro i _
      simp only [Function.comp_apply]
      have hsi : a + 1 + i = a + i.succ := by omega
      rw [hsi]

/-- On a kernel that stays busy forever, the driver loop sleeps
100+200+400+800+1600+3200 = 6300 ms in total and then reports `"Timeout"`. -/
theorem netlinkRetry_allBusy :
    netlinkRetry (fun _ => NlOutcome.busy) 0 =
      (Except.error (FError.NetworkingError "Timeout"),
        [100, 200, 400, 800, 1600, 3200]) := by
  rw [netlinkRetry]; norm_num
  rw [netlinkRetry]; norm_num
  rw [netlinkRetry]; norm_num
  rw [netlinkRetry]; norm_num
  rw [netlinkRetry]; norm_num
  rw [netlinkRetry]; norm_num

/-! ## Claim C9 — shapes of the generated random names -/

/-- C9.  Every name emitted by the generators has the prescribed shape:
interface names are exactly 8 characters of `[A-Za-z0-9]`; namespace names
are `"ns-"` followed by exactly 8 such characters; netfilter table names
are `"table"` followed by exactly 10 such characters — for every possible
draw of the RNG. -/
theorem C9_random_name_shapes :
    (∀ pool : List (Fin 62),
      (generate_random_interface_name pool).data.length = 8 ∧
      ∀ c ∈ (generate_random_interface_name pool).data, isAsciiAlnum c = true) ∧
    (∀ pool : List (Fin 62), ∃ rest : List Char,
      (generate_random_netns_name pool).data = ['n', 's', '-'] ++ rest ∧
      rest.length = 8 ∧ ∀ c ∈ rest, isAsciiAlnum c = true) ∧
    (∀ pool : List (Fin 62), ∃ rest : List Char,
      (generate_random_nft_table_name pool).data = ['t', 'a', 'b', 'l', 'e'] ++ rest ∧
      rest.length = 10 ∧ ∀ c ∈ rest, isAsciiAlnum c = true) := by
  refine ⟨?_, ?_, ?_⟩
  · intro pool
    exact ⟨sampleAlphanumeric_length pool 8, sampleAlphanumeric_mem pool 8⟩
  · intro pool
    exact ⟨sampleAlphanumeric pool 8, rfl, sampleAlphanumeric_length pool 8,
      sampleAlphanumeric_mem pool 8⟩
  · intro pool
    exact ⟨sampleAlphanumeric pool 10, rfl, sampleAlphanumeric_length pool 10,
      sampleAlphanumeric_mem pool 10⟩

/-! ## Claim C2 — invariant I4 across `move_interface_info_namespace` -/

/-- C2 (refuted — the code violates the invariant).  Moving interface 11,
which lives in namespace 21, into namespace 22 completes with `Ok`, yet
afterwards the interface's owning-namespace field says 22 while namespace
22's catalog record does not list interface 11: `move_interface_info_namespace`
rewrites the old namespace record but never persists the mutated
destination record. -/
theorem C2_invariant_broken :
    nsInvariant c2_state ∧
    ((move_interface_info_namespace 11 22).run c2_state).1 = Except.ok c2_moved ∧
    ¬ nsInvariant ((move_interface_info_namespace 11 22).run c2_state).2.1 := by
  refine ⟨by decide, by decide, by decide⟩

/-! ## Claim C3 — the EBUSY retry/backoff budget -/

/-- Sum of an initial segment of the exponential schedule. -/
theorem schedule_sum_le (k : Nat) (hk : k ≤ 6) :
    ((List.range k).map (fun i => 100 * 2 ^ i)).sum ≤ 6300 := by
  interval_cases k <;> decide

/-- C3 counterexample: on a kernel that stays busy, `create_bridge` sleeps
100+200+400+800+1600+3200 = 6300 ms — more than the claimed 5-second
aggregate ceiling — before returning the `"Timeout"` networking error. -/
theorem C3_counterexample :
    create_bridge_retry (fun _ => NlOutcome.busy) =
      (Except.error (FError.NetworkingError "Timeout"),
        [100, 200, 400, 800, 1600, 3200]) ∧
    ([100, 200, 400, 800, 1600, 3200] : List Nat).sum = 6300 ∧
    (5000 : Nat) < 6300 := by
  refine ⟨?_, by decide, by decide⟩
  rw [create_bridge_retry]
  exact netlinkRetry_allBusy

/-- C3 amended: delays are exponential, 100 ms doubling per attempt; the
retry continues while the *next* backoff is ≤ 5000 ms, so the aggregate
wait is bounded by 6300 ms (not 5000 ms), past which the operation returns
the `"Timeout"` networking error; any other netlink error returns
immediately with no sleep; three −16 results followed by success sleep
exactly 100+200+400 = 700 ms (which is ≤ 5 s) and return `Ok`. -/
theorem C3_amended :
    (∀ oracle : Nat → NlOutcome, ∃ k, k ≤ 6 ∧
      (create_bridge_retry oracle).2 =
        (List.range k).map (fun i => 100 * 2 ^ i) ∧
      (create_bridge_retry oracle).2.sum ≤ 6300) ∧
    (∀ msg : String, create_bridge_retry (fun _ => NlOutcome.err msg) =
      (Except.error (FError.NetworkingError msg), [])) ∧
    (create_bridge_retry c3_oracle = (Except.ok (), [100, 200, 400]) ∧
      ([100, 200, 400] : List Nat).sum = 700 ∧ (700 : Nat) ≤ 5000) := by
  refine ⟨?_, ?_, ?_, by decide, by decide⟩
  · intro oracle
    obtain ⟨k, hk, hb⟩ := netlinkRetry_sleeps oracle 5 0 rfl
    simp only [Nat.zero_add] at hk
    refine ⟨k, by omega, ?_, ?_⟩
    · rw [create_bridge_retry]
      exact hk
    · rw [create_bridge_retry, hk]
      exact schedule_sum_le k (by omega)
  · intro msg
    rw [create_bridge_retry, netlinkRetry]
  · rw [create_bridge_retry]
    rw [netlinkRetry]; norm_num [c3_oracle]
    rw [netlinkRetry]; norm_num [c3_oracle]
    rw [netlinkRetry]; norm_num [c3_oracle]
    rw [netlinkRetry]; norm_num [c3_oracle]

/-! ## Claim C4 — lock discipline across the backoff sleep -/

/-- C4 (the code violates it in the lookup-first operations).  With one
EBUSY answer, `create_vlan` sleeps its backoff while the exclusive netlink
write guard is held (the guard is acquired before the lookup and dropped
only on return), whereas `create_bridge` drops the guard before sleeping. -/
theorem C4_lock_held_across_sleep :
    create_vlan_lock_trace c4_oracle true =
      [LockEv.acquire, LockEv.nlLookup, LockEv.nlAttempt, LockEv.sleep 100,
       LockEv.nlAttempt, LockEv.release] ∧
    sleepsWhileHeld 0 (create_vlan_lock_trace c4_oracle true) = true ∧
    create_bridge_lock_trace c4_oracle 0 =
      [LockEv.acquire, LockEv.nlAttempt, LockEv.release, LockEv.sleep 100,
       LockEv.acquire, LockEv.nlAttempt, LockEv.release] ∧
    sleepsWhileHeld 0 (create_bridge_lock_trace c4_oracle 0) = false := by
  have hloop : create_vlan_lock_loop c4_oracle 0 =
      [LockEv.nlAttempt, LockEv.sleep 100, LockEv.nlAttempt] := by
    rw [create_vlan_lock_loop]; norm_num [c4_oracle]
    rw [create_vlan_lock_loop]; norm_num [c4_oracle]
  have hbr : create_bridge_lock_trace c4_oracle 0 =
      [LockEv.acquire, LockEv.nlAttempt, LockEv.release, LockEv.sleep 100,
       LockEv.acquire, LockEv.nlAttempt, LockEv.release] := by
    rw [create_bridge_lock_trace]; norm_num [c4_oracle]
    rw [create_bridge_lock_trace]; norm_num [c4_oracle]
  have hvl : create_vlan_lock_trace c4_oracle true =
      [LockEv.acquire, LockEv.nlLookup, LockEv.nlAttempt, LockEv.sleep 100,
       LockEv.nlAttempt, LockEv.release] := by
    rw [create_vlan_lock_trace, hloop]
    rfl
  refine ⟨hvl, ?_, hbr, ?_⟩
  · rw [hvl]; decide
  · rw [hbr]; decide

/-! ## Unfolding lemmas for the effect monad -/

theorem bind_run {α β : Type} (m : M α) (f : α → M β) :
    Bind.bind m f = M.bind m f := rfl

theorem pure_run {α : Type} (a : α) : (Pure.pure a : M α) = M.pure a := rfl

theorem run_def {α : Type} (m : M α) (s : PState) : M.run m s = m s := rfl

/-! ## Claim C8 — the VETH scavenger rule of `delete_virtual_interface` -/

/-- C8.  For a VETH interface living in a namespace whose worker reports an
error on deletion: if the peer's catalog record is absent the call
succeeds, returning the interface (and consuming only the one worker RPC);
if the peer's record is still present the call fails with a
`NetworkingError`. -/
theorem C8_veth_scavenger (s : PState) (u nsU : Uuid) (intf : VirtualInterface)
    (info : VETHKind) (ns : NetworkNamespace) (pid : Nat) (e : FError)
    (hget : cget s.localIfaces u = some intf)
    (hns : intf.net_ns = some nsU)
    (hnsrec : cget s.localNss nsU = some ns)
    (hmgr : cget s.nsManagers nsU = some pid)
    (hkind : intf.kind = VirtualInterfaceKind.VETH info)
    (hw : s.wRes s.wIdx = Except.ok (Except.error e)) :
    (cget s.localIfaces info.pair = none →
      (delete_virtual_interface u).run s =
        (Except.ok intf, { s with wIdx := s.wIdx + 1 },
          [Effect.wDelIface nsU intf.if_name])) ∧
    (∀ pairRec, cget s.localIfaces info.pair = some pairRec →
      (delete_virtual_interface u).run s =
        (Except.error (FError.NetworkingError
            "Veth peer not removed but interface not found in namespace"),
          { s with wIdx := s.wIdx + 1 },
          [Effect.wDelIface nsU intf.if_name])) := by
  constructor
  · intro hpair
    simp [delete_virtual_interface, run_def, bind_run, pure_run, M.bind, M.pure,
      get_node_uuid, localGetInterfaceOpt, localGetNetns, localGetNetnsOpt,
      get_ns_manager, w_del_virtual_interface, wcall, liftInner, throwE,
      localRemoveInterface, hget, hns, hnsrec, hmgr, hkind, hw, hpair]
  · intro pairRec hpair
    simp [delete_virtual_interface, run_def, bind_run, pure_run, M.bind, M.pure,
      get_node_uuid, localGetInterfaceOpt, localGetNetns, localGetNetnsOpt,
      get_ns_manager, w_del_virtual_interface, wcall, liftInner, throwE,
      localRemoveInterface, hget, hns, hnsrec, hmgr, hkind, hw, hpair]

theorem C8_witness :
    (delete_virtual_interface 31).run c8_state =
      (Except.ok c8_iface, { c8_state with wIdx := c8_state.wIdx + 1 },
        [Effect.wDelIface 41 "vthi"]) ∧
    (delete_virtual_interface 31).run c8_state2 =
      (Except.error (FError.NetworkingError
          "Veth peer not removed but interface not found in namespace"),
        { c8_state2 with wIdx := c8_state2.wIdx + 1 },
        [Effect.wDelIface 41 "vthi"]) :=
  ⟨(C8_veth_scavenger c8_state 31 41 c8_iface c8_info c8_ns 601
      (FError.NetworkingError "no such iface") (by decide) (by decide)
      (by decide) (by decide) (by decide) rfl).1 (by decide),
   (C8_veth_scavenger c8_state2 31 41 c8_iface c8_info c8_ns 601
      (FError.NetworkingError "no such iface") (by decide) (by decide)
      (by decide) (by decide) (by decide) rfl).2 c8_pair (by decide)⟩

/-! ## Claim C10 — the scavenger path does not remove the catalog record -/

/-- C10.  When `delete_virtual_interface` succeeds via the scavenger path
(worker error, VETH, peer record absent), the interface's own record stays
in the local catalog; every other successful path removes it: the
in-namespace path with a worker success does, and every out-of-namespace
success does. -/
theorem C10_scavenger_keeps_record :
    (∀ (s : PState) (u nsU : Uuid) (intf : VirtualInterface) (info : VETHKind)
        (ns : NetworkNamespace) (pid : Nat) (e : FError),
      cget s.localIfaces u = some intf →
      intf.net_ns = some nsU →
      cget s.localNss nsU = some ns →
      cget s.nsManagers nsU = some pid →
      intf.kind = VirtualInterfaceKind.VETH info →
      s.wRes s.wIdx = Except.ok (Except.error e) →
      cget s.localIfaces info.pair = none →
      ((delete_virtual_interface u).run s).1 = Except.ok intf ∧
      cget ((delete_virtual_interface u).run s).2.1.localIfaces u = some intf) ∧
    (∀ (s : PState) (u nsU : Uuid) (intf : VirtualInterface)
        (ns : NetworkNamespace) (pid : Nat),
      cget s.localIfaces u = some intf →
      intf.net_ns = some nsU →
      cget s.localNss nsU = some ns →
      cget s.nsManagers nsU = some pid →
      s.wRes s.wIdx = Except.ok (Except.ok ()) →
      ((delete_virtual_interface u).run s).1 = Except.ok intf ∧
      cget ((delete_virtual_interface u).run s).2.1.localIfaces u = none) ∧
    (∀ (s : PState) (u : Uuid) (intf n : VirtualInterface) (s' : PState)
        (tr : List Effect),
      cget s.localIfaces u = some intf →
      intf.net_ns = none →
      (delete_virtual_interface u).run s = (Except.ok n, s', tr) →
      cget s'.localIfaces u = none) := by
  refine ⟨?_, ?_, ?_⟩
  · intro s u nsU intf info ns pid e hget hns hnsrec hmgr hkind hw hpair
    simp [delete_virtual_interface, run_def, bind_run, pure_run, M.bind, M.pure,
      get_node_uuid, localGetInterfaceOpt, localGetNetns, localGetNetnsOpt,
      get_ns_manager, w_del_virtual_interface, wcall, liftInner, throwE,
      localRemoveInterface, hget, hns, hnsrec, hmgr, hkind, hw, hpair]
  · intro s u nsU intf ns pid hget hns hnsrec hmgr hw
    simp [delete_virtual_interface, run_def, bind_run, pure_run, M.bind, M.pure,
      get_node_uuid, localGetInterfaceOpt, localGetNetns, localGetNetnsOpt,
      get_ns_manager, w_del_virtual_interface, wcall, liftInner, throwE,
      localRemoveInterface, hget, hns, hnsrec, hmgr, hw, cget_cdel_same]
  · intro s u intf n s' tr hget hns hrun
    simp only [delete_virtual_interface, run_def, bind_run, pure_run, M.bind,
      M.pure, get_node_uuid, localGetInterfaceOpt, localGetNetwork,
      localRemoveInterface, attempt, del_iface, extCall, throwE,
      hget, hns] at hrun
    split at hrun
    · simp at hrun
    · simp only [Prod.mk.injEq] at hrun
      obtain ⟨-, hs', -⟩ := hrun
      subst hs'
      exact cget_cdel_same _ u

theorem C10_witness :
    (((delete_virtual_interface 31).run c8_state).1 = Except.ok c8_iface ∧
      cget ((delete_virtual_interface 31).run c8_state).2.1.localIfaces 31 =
        some c8_iface) ∧
    (((delete_virtual_interface 31).run c10_okstate).1 = Except.ok c8_iface ∧
      cget ((delete_virtual_interface 31).run c10_okstate).2.1.localIfaces 31 =
        none) ∧
    cget c10_state3'.localIfaces 51 = none :=
  ⟨C10_scavenger_keeps_record.1 c8_state 31 41 c8_iface c8_info c8_ns 601
      (FError.NetworkingError "no such iface") (by decide) (by decide)
      (by decide) (by decide) (by decide) rfl (by decide),
   C10_scavenger_keeps_record.2.1 c10_okstate 31 41 c8_iface c8_ns 601
      (by decide) (by decide) (by decide) (by decide) rfl,
   C10_scavenger_keeps_record.2.2 c10_state3 51 c10_iface3 c10_iface3
      c10_state3' [Effect.delIface "brz", Effect.catDelIface 51]
      (by decide) (by decide) rfl⟩

/-! ## Frame lemmas: which operations leave `localNets` untouched -/

theorem pnets_bind {α β : Type} {m : M α} {f : α → M β}
    (hm : PNets m) (hf : ∀ a, PNets (f a)) : PNets (M.bind m f) := by
  intro s
  have hms := hm s
  unfold M.bind
  rcases hE : m s with ⟨r, s1, t1⟩
  rw [hE] at hms
  cases r with
  | error e => simpa using hms
  | ok a =>
    have hfa := hf a s1
    simp only []
    rw [hfa]
    exact hms

theorem pnets_pure {α : Type} (a : α) : PNets (M.pure a) := fun _ => rfl

theorem pnets_throw {α : Type} (e : FError) : PNets (throwE e : M α) :=
  fun _ => rfl

theorem pnets_extCall (eff : Effect) : PNets (extCall eff) := fun _ => rfl

theorem pnets_wcall (eff : Effect) : PNets (wcall eff) := fun _ => rfl

theorem pnets_liftInner (r : Except FError Unit) : PNets (liftInner r) := by
  cases r with
  | ok a => exact fun _ => rfl
  | error e => exact fun _ => rfl

theorem pnets_attempt {α : Type} (m : M α) : PNets m → PNets (attempt m) := by
  intro hm s
  exact hm s

theorem pnets_get_node_uuid : PNets get_node_uuid := fun _ => rfl

theorem pnets_localGetInterfaceOpt (u : Uuid) : PNets (localGetInterfaceOpt u) :=
  fun _ => rfl

theorem pnets_localGetNetnsOpt (u : Uuid) : PNets (localGetNetnsOpt u) :=
  fun _ => rfl

theorem pnets_localGetNetns (u : Uuid) : PNets (localGetNetns u) := by
  unfold localGetNetns
  rw [bind_run]
  apply pnets_bind (pnets_localGetNetnsOpt u)
  intro a
  cases a with
  | some n => exact pnets_pure n
  | none => exact pnets_throw _

theorem pnets_get_ns_manager (u : Uuid) : PNets (get_ns_manager u) := by
  intro s
  unfold get_ns_manager
  cases cget s.nsManagers u <;> rfl

theorem pnets_localRemoveInterface (u : Uuid) : PNets (localRemoveInterface u) :=
  fun _ => rfl

theorem pnets_delete_virtual_interface (u : Uuid) :
    PNets (delete_virtual_interface u) := by
  unfold delete_virtual_interface
  simp only [bind_run]
  apply pnets_bind pnets_get_node_uuid
  intro _
  apply pnets_bind (pnets_localGetInterfaceOpt u)
  intro o
  split
  · exact pnets_throw _
  · split
    · -- in a namespace
      apply pnets_bind (pnets_localGetNetns _)
      intro _
      apply pnets_bind (pnets_get_ns_manager _)
      intro mgr
      apply pnets_bind (pnets_wcall _)
      intro res
      split
      · -- worker error
        split
        · -- VETH: scavenger check
          apply pnets_bind (pnets_localGetInterfaceOpt _)
          intro o2
          split
          · exact pnets_pure _
          · exact pnets_throw _
        · exact pnets_throw _
      · -- worker ok
        apply pnets_bind (pnets_localRemoveInterface u)
        intro _
        exact pnets_pure _
    · -- out of any namespace
      apply pnets_bind
      · split
        · -- VETH
          apply pnets_bind (pnets_localGetInterfaceOpt _)
          intro o2
          split
          · apply pnets_bind (pnets_attempt _ (pnets_extCall _))
            intro _
            apply pnets_bind (pnets_attempt _ (pnets_extCall _))
            intro _
            exact pnets_localRemoveInterface _
          · exact pnets_attempt _ (pnets_extCall _)
        · exact pnets_extCall _
      · intro _
        apply pnets_bind (pnets_localRemoveInterface u)
        intro _
        exact pnets_pure _

theorem pnets_deleteInterfacesLoop (l : List Uuid) :
    PNets (deleteInterfacesLoop l) := by
  induction l with
  | nil => exact pnets_pure ()
  | cons i r ih =>
    unfold deleteInterfacesLoop
    simp only [bind_run]
    apply pnets_bind (pnets_delete_virtual_interface i)
    intro _
    exact ih

/-! ## Claim C1 — `delete_virtual_network` on non-empty connection points -/

/-- C1 amended, general part: whenever the local catalog has the network
and its `connection_points` list is non-empty, `delete_virtual_network`
returns an error and the *network record itself* is still in the local
catalog, unchanged. (The listed interface records, however, are deleted
before the refusal — see the counterexample.) -/
theorem C1_amended (s : PState) (u : Uuid) (vnet : VirtualNetwork)
    (hget : cget s.localNets u = some vnet)
    (hcp : vnet.connection_points ≠ []) :
    (∃ e, ((delete_virtual_network u).run s).1 = Except.error e) ∧
    cget ((delete_virtual_network u).run s).2.1.localNets u = some vnet := by
  have hloop := pnets_deleteInterfacesLoop vnet.interfaces
  simp only [delete_virtual_network, run_def, bind_run, pure_run, M.bind,
    M.pure, get_node_uuid, localGetNetworkOpt, hget]
  rcases hE : deleteInterfacesLoop vnet.interfaces s with ⟨r, s1, t1⟩
  have hs1 := hloop s
  rw [hE] at hs1
  have hs1' : s1.localNets = s.localNets := hs1
  cases r with
  | error e =>
    refine ⟨⟨e, rfl⟩, ?_⟩
    show cget s1.localNets u = some vnet
    rw [hs1']
    exact hget
  | ok a =>
    have hcpb : vnet.connection_points.isEmpty = false := by
      cases hcpl : vnet.connection_points with
      | nil => exact absurd hcpl hcp
      | cons x r => rfl
    rw [hcpb]
    refine ⟨⟨FError.NetworkingError
      "Cannot remove virtual network that has attached connection points",
      rfl⟩, ?_⟩
    show cget s1.localNets u = some vnet
    rw [hs1']
    exact hget

/-- C1 counterexample: on a network with one interface and one connection
point, `delete_virtual_network` does return the `NetworkingError`, and the
network record survives — but the interface record it references has been
deleted from the catalog by the time the call refuses, so the network is
*not* left intact. -/
theorem C1_counterexample :
    ((delete_virtual_network 7).run c1_state).1 =
      Except.error (FError.NetworkingError
        "Cannot remove virtual network that has attached connection points") ∧
    cget c1_state.localIfaces 5 = some c1_iface ∧
    cget ((delete_virtual_network 7).run c1_state).2.1.localIfaces 5 = none ∧
    cget ((delete_virtual_network 7).run c1_state).2.1.localNets 7 =
      some c1_net := by
  refine ⟨by decide, by decide, by decide, by decide⟩

theorem C1_witness :
    (∃ e, ((delete_virtual_network 7).run c1_state).1 = Except.error e) ∧
    cget ((delete_virtual_network 7).run c1_state).2.1.localNets 7 =
      some c1_net :=
  C1_amended c1_state 7 c1_net (by decide) (by decide)

/-! ## Claim C5 — the default virtual network -/

/-- C5.  On a node whose overlay interface resolves and whose external
calls succeed, `create_default_virtual_network dhcp` returns the network
with the nil uuid, L2 multicast-VXLAN link (VNI 3845, group 239.15.5.0,
port 3845), whose `interfaces` are exactly the ids under which the bridge
`fosbr0` and the VXLAN `fosvxl0` are recorded in the local catalog, and
whose internals carry the `<run>/fosbr0.{conf,pid,leases,log}` DHCP
binding iff `dhcp` is true. -/
theorem C5_default_network (dhcp : Bool) (s : PState)
    (ovlName : String) (addrs : List IPAddress)
    (hovl : s.config.overlay_iface = some ovlName)
    (haddr : cget s.kernelAddrs ovlName = some addrs)
    (hio : ∀ i, s.ioRes i = Except.ok ()) :
    ∃ n,
      ((create_default_virtual_network dhcp).run s).1 = Except.ok n ∧
      n.uuid = 0 ∧
      n.link_kind = LinkKind.L2
        { vni := 3845, mcast_addr := IPAddress.v4 239 15 5 0, port := 3845 } ∧
      n.interfaces = [0, s.uuidCtr + 1] ∧
      (∃ br,
        cget (((create_default_virtual_network dhcp).run s).2.1).localIfaces 0 =
          some br ∧ br.if_name = "fosbr0" ∧ br.uuid = 0) ∧
      (∃ vx,
        cget (((create_default_virtual_network dhcp).run s).2.1).localIfaces
            (s.uuidCtr + 1) =
          some vx ∧ vx.if_name = "fosvxl0" ∧ vx.uuid = s.uuidCtr + 1) ∧
      cget (((create_default_virtual_network dhcp).run s).2.1).localNets 0 =
        some n ∧
      (∃ ints, n.plugin_internals = some ints ∧
        (ints.dhcp = some
          { leases_file := pathJoin s.config.run_path "fosbr0.leases",
            pid_file := pathJoin s.config.run_path "fosbr0.pid",
            conf := pathJoin s.config.run_path "fosbr0.conf",
            log_file := pathJoin s.config.run_path "fosbr0.log" } ↔
            dhcp = true)) := by
  have hz : (0 : Uuid) ≠ s.uuidCtr + 1 := (Nat.succ_ne_zero s.uuidCtr).symm
  cases dhcp with
  | false =>
    simp only [create_default_virtual_network, run_def, bind_run, pure_run,
      M.bind, M.pure, get_node_uuid, freshUuid, get_overlay_iface,
      get_overlay_face_from_config, getConfig, get_iface_addresses,
      create_bridge, set_iface_up, create_mcast_vxlan, set_iface_master,
      add_iface_address, extCall, configure_nat, genTableName, takeEntropy,
      get_run_path, localPutInterface, localPutNetwork,
      serialize_network_internals, throwE, hovl, haddr, hio,
      Bool.false_eq_true, if_false]
    refine ⟨_, rfl, rfl, rfl, rfl, ?_, ?_, ?_, ⟨_, rfl, ?_⟩⟩
    · exact ⟨_, by rw [cget_cput_other _ _ _ _ hz]; exact cget_cput_same _ _ _,
        rfl, rfl⟩
    · exact ⟨_, cget_cput_same _ _ _, rfl, rfl⟩
    · exact cget_cput_same _ _ _
    · simp
  | true =>
    simp only [create_default_virtual_network, run_def, bind_run, pure_run,
      M.bind, M.pure, get_node_uuid, freshUuid, get_overlay_iface,
      get_overlay_face_from_config, getConfig, get_iface_addresses,
      create_bridge, set_iface_up, create_mcast_vxlan, set_iface_master,
      add_iface_address, extCall, create_dnsmasq_config, store_file,
      spawn_dnsmasq, configure_nat, genTableName, takeEntropy, get_run_path,
      localPutInterface, localPutNetwork, serialize_network_internals,
      throwE, hovl, haddr, hio, if_true]
    refine ⟨_, rfl, rfl, rfl, rfl, ?_, ?_, ?_, ⟨_, rfl, ?_⟩⟩
    · exact ⟨_, by rw [cget_cput_other _ _ _ _ hz]; exact cget_cput_same _ _ _,
        rfl, rfl⟩
    · exact ⟨_, cget_cput_same _ _ _, rfl, rfl⟩
    · exact cget_cput_same _ _ _
    · simp

theorem C5_witness :
    ∃ n,
      ((create_default_virtual_network true).run st0).1 = Except.ok n ∧
      n.uuid = 0 ∧
      n.link_kind = LinkKind.L2
        { vni := 3845, mcast_addr := IPAddress.v4 239 15 5 0, port := 3845 } ∧
      n.interfaces = [0, st0.uuidCtr + 1] ∧
      (∃ br,
        cget (((create_default_virtual_network true).run st0).2.1).localIfaces 0 =
          some br ∧ br.if_name = "fosbr0" ∧ br.uuid = 0) ∧
      (∃ vx,
        cget (((create_default_virtual_network true).run st0).2.1).localIfaces
            (st0.uuidCtr + 1) =
          some vx ∧ vx.if_name = "fosvxl0" ∧ vx.uuid = st0.uuidCtr + 1) ∧
      cget (((create_default_virtual_network true).run st0).2.1).localNets 0 =
        some n ∧
      (∃ ints, n.plugin_internals = some ints ∧
        (ints.dhcp = some
          { leases_file := pathJoin st0.config.run_path "fosbr0.leases",
            pid_file := pathJoin st0.config.run_path "fosbr0.pid",
            conf := pathJoin st0.config.run_path "fosbr0.conf",
            log_file := pathJoin st0.config.run_path "fosbr0.log" } ↔
            true = true)) :=
  C5_default_network true st0 "eth0" [IPAddress.v4 192 0 2 3] rfl (by decide)
    (fun _ => rfl)

/-! ## Claim C7 — the two VXLAN construct procedures agree up to the
VXLAN variant payload -/

/-- C7.  From the same state (hence the same drawn names and uuids), on a
node whose overlay interface has an address and whose external calls and
worker RPCs succeed, the multicast construct and the point-to-point
construct with the same VNI and port return the *same* `VirtualNetwork`
record, both succeed, and their catalog-write / kernel / worker effect
sequences are equal once the VXLAN variant payload is erased. -/
theorem C7_construct_equivalence (s : PState) (vnet : VirtualNetwork)
    (vni port : Nat) (ga ra : IPAddress)
    (ovlName : String) (a0 : IPAddress) (arest : List IPAddress)
    (hovl : s.config.overlay_iface = some ovlName)
    (haddr : cget s.kernelAddrs ovlName = some (a0 :: arest))
    (hio : ∀ i, s.ioRes i = Except.ok ())
    (hw : ∀ i, s.wRes i = Except.ok (Except.ok ())) :
    ((mcast_vxlan_create vnet
        { vni := vni, mcast_addr := ga, port := port }).run s).1 =
      ((ptp_vxlan_create vnet
        { vni := vni, remote_addr := ra, port := port }).run s).1 ∧
    (∃ n, ((mcast_vxlan_create vnet
        { vni := vni, mcast_addr := ga, port := port }).run s).1 =
      Except.ok n) ∧
    (((mcast_vxlan_create vnet
        { vni := vni, mcast_addr := ga, port := port }).run s).2.2).map
        eraseVxlanPayload =
      (((ptp_vxlan_create vnet
        { vni := vni, remote_addr := ra, port := port }).run s).2.2).map
        eraseVxlanPayload := by
  refine ⟨?_, ?_, ?_⟩ <;>
    simp [mcast_vxlan_create, ptp_vxlan_create, run_def, bind_run, pure_run,
      M.bind, M.pure, get_node_uuid, freshUuid, genIfaceName, genNetnsName,
      takeEntropy, get_overlay_iface, get_overlay_face_from_config, getConfig,
      get_iface_addresses, create_bridge, create_veth, create_mcast_vxlan,
      create_ptp_vxlan, set_iface_up, set_iface_master, set_iface_ns,
      add_netns, extCall, spawn_ns_manager, get_ns_manager,
      wait_verify_server, w_set_virtual_interface_up,
      w_add_virtual_interface_bridge, w_set_virtual_interface_master, wcall,
      liftInner, localPutInterface, localPutNetns,
      serialize_network_internals, hovl, haddr, hio, hw, cget_cput_same,
      eraseVxlanPayload, scrubVxlan, List.map_replicate]

theorem C7_witness :
    ((mcast_vxlan_create c7_vnet
        { vni := 100, mcast_addr := IPAddress.v4 239 1 1 1, port := 4789 }).run st0).1 =
      ((ptp_vxlan_create c7_vnet
        { vni := 100, remote_addr := IPAddress.v4 192 0 2 7, port := 4789 }).run st0).1 ∧
    (∃ n, ((mcast_vxlan_create c7_vnet
        { vni := 100, mcast_addr := IPAddress.v4 239 1 1 1, port := 4789 }).run st0).1 =
      Except.ok n) ∧
    (((mcast_vxlan_create c7_vnet
        { vni := 100, mcast_addr := IPAddress.v4 239 1 1 1, port := 4789 }).run st0).2.2).map
        eraseVxlanPayload =
      (((ptp_vxlan_create c7_vnet
        { vni := 100, remote_addr := IPAddress.v4 192 0 2 7, port := 4789 }).run st0).2.2).map
        eraseVxlanPayload :=
  C7_construct_equivalence st0 c7_vnet 100 4789 (IPAddress.v4 239 1 1 1)
    (IPAddress.v4 192 0 2 7) "eth0" (IPAddress.v4 192 0 2 3) [] rfl
    (by decide) (fun _ => rfl) (fun _ => rfl)

/-! ## Claim C6 — idempotence of `create_virtual_network` -/

/-- C6 counterexample: the claim's "if the local catalog already has the
network, it is returned as is" fails when the global catalog does not hold
the network, because `create_virtual_network` consults the global catalog
first: on a node whose local catalog holds network 70 but whose global
catalog is empty, the call returns `NotFound`, not the local record. -/
theorem C6_counterexample :
    cget c6_cx_state.localNets 70 = some c6_vnet ∧
    ((create_virtual_network 70).run c6_cx_state).1 =
      Except.error FError.NotFound := by
  refine ⟨by decide, by decide⟩

/-- C6 amended.  (1) Re-entry: `create_virtual_network` consults the
global catalog first, so a network already in the local catalog is
returned as is only when the global catalog still holds it too; in that
case the state is unchanged and the effect trace empty, so no kernel
mutation and no new kernel object.  (2) Two calls: on a healthy node
(overlay present with an address, external calls and worker RPCs
succeeding, global record keyed by its own uuid), if the first call
returns `Ok n` then the second returns the same `n`, leaves the state
untouched and performs no effect at all. -/
theorem C6_idempotent :
    (∀ (s : PState) (u : Uuid) (rec net : VirtualNetwork),
      cget s.globalNets u = some rec →
      cget s.localNets u = some net →
      (create_virtual_network u).run s = (Except.ok net, s, [])) ∧
    (∀ (s : PState) (u : Uuid) (rec : VirtualNetwork) (ovlName : String)
        (a0 : IPAddress) (arest : List IPAddress)
        (n : VirtualNetwork) (s1 : PState) (t1 : List Effect),
      cget s.globalNets u = some rec →
      rec.uuid = u →
      s.config.overlay_iface = some ovlName →
      cget s.kernelAddrs ovlName = some (a0 :: arest) →
      (∀ i, s.ioRes i = Except.ok ()) →
      (∀ i, s.wRes i = Except.ok (Except.ok ())) →
      (create_virtual_network u).run s = (Except.ok n, s1, t1) →
      (create_virtual_network u).run s1 = (Except.ok n, s1, [])) := by
  constructor
  · intro s u rec net hg hl
    simp [create_virtual_network, run_def, bind_run, pure_run, M.bind, M.pure,
      get_node_uuid, globalGetNetworkOpt, localGetNetworkOpt, hg, hl]
  · intro s u rec ovlName a0 arest n s1 t1 hg hcoh hovl haddr hio hw h1
    cases hl : cget s.localNets u with
    | some net =>
      simp only [create_virtual_network, run_def, bind_run, pure_run, M.bind,
        M.pure, get_node_uuid, globalGetNetworkOpt, localGetNetworkOpt,
        hg, hl] at h1
      simp only [Prod.mk.injEq, Except.ok.injEq] at h1
      obtain ⟨hn, hs, -⟩ := h1
      subst hn
      subst hs
      simp [create_virtual_network, run_def, bind_run, pure_run, M.bind,
        M.pure, get_node_uuid, globalGetNetworkOpt, localGetNetworkOpt,
        hg, hl]
    | none =>
      cases hk : rec.link_kind with
      | L2 info =>
        simp only [create_virtual_network, run_def, bind_run, pure_run,
          M.bind, M.pure, get_node_uuid, globalGetNetworkOpt,
          localGetNetworkOpt, hg, hl, hk, mcast_vxlan_create, freshUuid,
          genIfaceName, genNetnsName, takeEntropy, get_overlay_iface,
          get_overlay_face_from_config, get_iface_addresses, create_bridge,
          create_veth, create_mcast_vxlan, set_iface_up, set_iface_master,
          set_iface_ns, add_netns, extCall, spawn_ns_manager, get_ns_manager,
          wait_verify_server, w_set_virtual_interface_up,
          w_add_virtual_interface_bridge, w_set_virtual_interface_master,
          wcall, liftInner, localPutInterface, localPutNetns,
          localPutNetwork, serialize_network_internals, hovl, haddr, hio, hw,
          cget_cput_same] at h1
        simp only [Prod.mk.injEq, Except.ok.injEq] at h1
        obtain ⟨hn, hs, -⟩ := h1
        subst hn
        subst hs
        simp [create_virtual_network, run_def, bind_run, pure_run, M.bind,
          M.pure, get_node_uuid, globalGetNetworkOpt, localGetNetworkOpt,
          hg, hcoh, cget_cput_same]
      | ELINE info =>
        simp only [create_virtual_network, run_def, bind_run, pure_run,
          M.bind, M.pure, get_node_uuid, globalGetNetworkOpt,
          localGetNetworkOpt, hg, hl, hk, ptp_vxlan_create, freshUuid,
          genIfaceName, genNetnsName, takeEntropy, get_overlay_iface,
          get_overlay_face_from_config, get_iface_addresses, create_bridge,
          create_veth, create_ptp_vxlan, set_iface_up, set_iface_master,
          set_iface_ns, add_netns, extCall, spawn_ns_manager, get_ns_manager,
          wait_verify_server, w_set_virtual_interface_up,
          w_add_virtual_interface_bridge, w_set_virtual_interface_master,
          wcall, liftInner, localPutInterface, localPutNetns,
          localPutNetwork, serialize_network_internals, hovl, haddr, hio, hw,
          cget_cput_same, List.head?_cons] at h1
        simp only [Prod.mk.injEq, Except.ok.injEq] at h1
        obtain ⟨hn, hs, -⟩ := h1
        subst hn
        subst hs
        simp [create_virtual_network, run_def, bind_run, pure_run, M.bind,
          M.pure, get_node_uuid, globalGetNetworkOpt, localGetNetworkOpt,
          hg, hcoh, cget_cput_same]
      | unsupported =>
        simp only [create_virtual_network, run_def, bind_run, pure_run,
          M.bind, M.pure, get_node_uuid, globalGetNetworkOpt,
          localGetNetworkOpt, throwE, hg, hl, hk] at h1
        exact absurd h1 (by simp)

theorem C6_witness :
    (create_virtual_network 70).run c6_state_local =
      (Except.ok c6_vnet, c6_state_local, []) ∧
    (create_virtual_network 70).run c6_run.2.1 =
      (Except.ok c6_n, c6_run.2.1, []) :=
  ⟨C6_idempotent.1 c6_state_local 70 c6_vnet c6_vnet (by decide) (by decide),
   C6_idempotent.2 c6_state 70 c6_vnet "eth0" (IPAddress.v4 192 0 2 3) []
     c6_n c6_run.2.1 c6_run.2.2 (by decide) (by decide) rfl (by decide)
     (fun _ => rfl) (fun _ => rfl) rfl⟩

end Fos
